import Mathlib

/-!
Verification of the operator evaluation engine of `goconsole`
(`src/interp/operator.go`), a tree-walking interpreter for Go expressions.

The file is a shallow embedding of `operator.go` into Lean 4:

* machine integers are `Int`/`Nat` with explicit wrapping at the declared
  bit width (`wrapS` / `wrapU`);
* `reflect.Value` becomes `RValue` (a runtime type tag plus a payload);
  accessors and setters of the `reflect` package are embedded with their
  documented panic behaviour;
* `exact.Value` (the `golang.org/x/tools/go/exact` arbitrary-precision
  constant) becomes `ExactValue`;
* fallible code returns `Except Fault _`, where `Fault` distinguishes the
  process-aborting `log.Fatal` calls from the recoverable `panic` calls
  (explicit `panic("Type error: ...")`, panics raised inside `reflect`,
  and Go runtime panics such as integer division by zero);
* IEEE floating point is modelled by `FloatVal`: a sign/magnitude pair of
  rationals plus a NaN, enough to capture the equality and comparison
  behaviour the specification talks about (NaN is never equal to anything,
  the two signed zeros are equal); float rounding is not modelled, no claim
  depends on it.

Functions whose source is outside `src/interp/operator.go` (the type map
registry, zero-value allocation, `isTyped`, `TypeString`) are modelled from
the specification; their doc comments say so explicitly.
-/

namespace GoConsole

/-- Two's-complement wraparound of an integer at bit width `w`:
the unique representative of `x` modulo `2^w` in `[-2^(w-1), 2^(w-1))`.
This is what a Go conversion to a `w`-bit signed type computes. -/
def wrapS (w : ℕ) (x : ℤ) : ℤ :=
  (x + 2 ^ (w - 1)) % 2 ^ w - 2 ^ (w - 1)

/-- Wraparound of a natural number at bit width `w`, i.e. what a Go
conversion to a `w`-bit unsigned type computes. -/
def wrapU (w : ℕ) (n : ℕ) : ℕ := n % 2 ^ w

/-- Two's-complement encoding at width `w` of an integer (the unsigned
`w`-bit number with the same bit pattern as `wrapS w x`). -/
def toU (w : ℕ) (x : ℤ) : ℕ := (x % 2 ^ w).toNat

/-- The subset of `reflect.Kind` used by the engine, plus `Ptr` standing in
for the reference kinds (pointer/slice/map/...) that untyped-nil equality
compares against. -/
inductive Kind where
  | KBool | KInt | KInt8 | KInt16 | KInt32 | KInt64
  | KUint | KUint8 | KUint16 | KUint32 | KUint64 | KUintptr
  | KFloat32 | KFloat64 | KComplex64 | KComplex128
  | KString | KPtr
deriving DecidableEq

/-- Bit width of the integer kinds.  `int`, `uint` and `uintptr` are the
64-bit machine word (the interpreter runs on a 64-bit host). -/
def kindWidth : Kind → ℕ
  | .KInt8 | .KUint8 => 8
  | .KInt16 | .KUint16 => 16
  | .KInt32 | .KUint32 => 32
  | _ => 64

def isSignedInt : Kind → Bool
  | .KInt | .KInt8 | .KInt16 | .KInt32 | .KInt64 => true
  | _ => false

def isUnsignedInt : Kind → Bool
  | .KUint | .KUint8 | .KUint16 | .KUint32 | .KUint64 | .KUintptr => true
  | _ => false

/-- A `reflect.Type`: the storage kind plus, for a named (user-declared)
type, the identity of that type.  `none` means the predeclared basic type
of that kind. -/
structure RType where
  kind : Kind
  name : Option String
deriving DecidableEq

/-- Model of an IEEE floating-point datum: NaN, or a sign bit together
with a non-negative rational magnitude.  `fin true 0` is `-0.0`. -/
inductive FloatVal where
  | nan
  | fin (neg : Bool) (mag : ℚ)
deriving DecidableEq

/-- The rational a finite float denotes (NaN is sent to 0; callers guard). -/
def FloatVal.toRat : FloatVal → ℚ
  | .nan => 0
  | .fin s m => if s then -m else m

def FloatVal.ofRat (q : ℚ) : FloatVal :=
  if q < 0 then .fin true (-q) else .fin false q

/-- IEEE `==` on floats: NaN is not equal to anything (itself included);
`+0.0 == -0.0`; finite values compare by the number they denote. -/
def feq : FloatVal → FloatVal → Bool
  | .nan, _ => false
  | _, .nan => false
  | .fin s1 m1, .fin s2 m2 => decide ((m1 = 0 ∧ m2 = 0) ∨ (s1 = s2 ∧ m1 = m2))

/-- IEEE `<` on floats: false whenever either side is NaN. -/
def flt : FloatVal → FloatVal → Bool
  | .nan, _ => false
  | _, .nan => false
  | a, b => decide (a.toRat < b.toRat)

/-- IEEE `<=` on floats: false whenever either side is NaN. -/
def fle : FloatVal → FloatVal → Bool
  | .nan, _ => false
  | _, .nan => false
  | a, b => decide (a.toRat ≤ b.toRat)

/-- Model of float addition: rational addition with NaN propagation.
(Width-dependent rounding is not modelled; no claim depends on it.) -/
def fadd : FloatVal → FloatVal → FloatVal
  | .nan, _ => .nan
  | _, .nan => .nan
  | a, b => .ofRat (a.toRat + b.toRat)

def fsub : FloatVal → FloatVal → FloatVal
  | .nan, _ => .nan
  | _, .nan => .nan
  | a, b => .ofRat (a.toRat - b.toRat)

def fmul : FloatVal → FloatVal → FloatVal
  | .nan, _ => .nan
  | _, .nan => .nan
  | a, b => .ofRat (a.toRat * b.toRat)

/-- Model of float division.  In Go a float division by zero yields an
infinity or NaN but never panics; the model collapses those non-finite
results into NaN.  No claim depends on the value. -/
def fdivF : FloatVal → FloatVal → FloatVal
  | .nan, _ => .nan
  | _, .nan => .nan
  | a, b => if b.toRat = 0 then .nan else .ofRat (a.toRat / b.toRat)

/-- Complex arithmetic on pairs of model floats, componentwise where Go's
`complex128` arithmetic is componentwise. -/
def cadd (a b : FloatVal × FloatVal) : FloatVal × FloatVal :=
  (fadd a.1 b.1, fadd a.2 b.2)

def csub (a b : FloatVal × FloatVal) : FloatVal × FloatVal :=
  (fsub a.1 b.1, fsub a.2 b.2)

def cmul (a b : FloatVal × FloatVal) : FloatVal × FloatVal :=
  (fsub (fmul a.1 b.1) (fmul a.2 b.2), fadd (fmul a.1 b.2) (fmul a.2 b.1))

/-- Model of complex division via the usual formula; a zero divisor gives
NaN components (Go gives infinities/NaNs, never a panic). -/
def cdiv (a b : FloatVal × FloatVal) : FloatVal × FloatVal :=
  let d := fadd (fmul b.1 b.1) (fmul b.2 b.2)
  (fdivF (fadd (fmul a.1 b.1) (fmul a.2 b.2)) d,
   fdivF (fsub (fmul a.2 b.1) (fmul a.1 b.2)) d)

/-- The concrete datum stored in a `reflect.Value`. -/
inductive Payload where
  | pint (v : ℤ)
  | puint (v : ℕ)
  | pfloat (v : FloatVal)
  | pcomplex (re im : FloatVal)
  | pstr (s : String)
  | pbool (b : Bool)
  | pptr (addr : ℕ)
deriving DecidableEq

/-- A `reflect.Value`: its `reflect.Type` and the stored datum. -/
structure RValue where
  ty : RType
  payload : Payload
deriving DecidableEq

/-- The failure modes of the engine, by host-language mechanism:
`fatalLog` is `log.Fatal`/`log.Fatalf` (prints and aborts the process,
cannot be recovered); the other three are Go panics, which the caller can
recover: `typeErrorPanic` is the engine's own `panic("Type error: ...")`,
`reflectPanic` is a panic raised inside the `reflect` package, and
`runtimePanic` is a Go runtime fault such as integer division by zero. -/
inductive Fault where
  | fatalLog (msg : String)
  | typeErrorPanic (msg : String)
  | reflectPanic (msg : String)
  | runtimePanic (msg : String)
deriving DecidableEq

/-- A fault the surrounding evaluator can catch (every panic can be caught
with `recover`; `log.Fatal` exits the process). -/
def Fault.recoverable : Fault → Bool
  | .fatalLog _ => false
  | _ => true

/-- The internal-consistency fault class of spec §7: defensive assertions
(`log.Fatal`, the engine's `"Type error"` panics, and misuse of `reflect`),
as opposed to dynamic language-level faults of the interpreted program. -/
def Fault.isInternalConsistency : Fault → Bool
  | .fatalLog _ => true
  | .typeErrorPanic _ => true
  | .reflectPanic _ => true
  | .runtimePanic _ => false

/-- `reflect.Value.Int`: the stored signed integer; panics unless the
value's kind is a signed integer kind. -/
def RValue.intAcc (v : RValue) : Except Fault ℤ :=
  if isSignedInt v.ty.kind then
    match v.payload with
    | .pint i => .ok i
    | _ => .error (.reflectPanic "reflect: call of reflect.Value.Int on non-int Value")
  else .error (.reflectPanic "reflect: call of reflect.Value.Int on non-int Value")

/-- `reflect.Value.Uint`: the stored unsigned integer; panics unless the
value's kind is an unsigned integer kind. -/
def RValue.uintAcc (v : RValue) : Except Fault ℕ :=
  if isUnsignedInt v.ty.kind then
    match v.payload with
    | .puint n => .ok n
    | _ => .error (.reflectPanic "reflect: call of reflect.Value.Uint on non-uint Value")
  else .error (.reflectPanic "reflect: call of reflect.Value.Uint on non-uint Value")

/-- `reflect.Value.Float`; panics unless the kind is a float kind. -/
def RValue.floatAcc (v : RValue) : Except Fault FloatVal :=
  match v.ty.kind, v.payload with
  | .KFloat32, .pfloat f => .ok f
  | .KFloat64, .pfloat f => .ok f
  | _, _ => .error (.reflectPanic "reflect: call of reflect.Value.Float on non-float Value")

/-- `reflect.Value.Complex`; panics unless the kind is a complex kind. -/
def RValue.complexAcc (v : RValue) : Except Fault (FloatVal × FloatVal) :=
  match v.ty.kind, v.payload with
  | .KComplex64, .pcomplex re im => .ok (re, im)
  | .KComplex128, .pcomplex re im => .ok (re, im)
  | _, _ => .error (.reflectPanic "reflect: call of reflect.Value.Complex on non-complex Value")

/-- `reflect.Value.String`: never panics; on a non-string value it returns
a placeholder string. -/
def RValue.strAcc (v : RValue) : String :=
  match v.payload with
  | .pstr s => s
  | _ => "<value>"

/-- `reflect.Value.IsNil`: whether a reference-kind value is nil; panics on
non-reference kinds. -/
def RValue.isNilAcc (v : RValue) : Except Fault Bool :=
  match v.ty.kind, v.payload with
  | .KPtr, .pptr addr => .ok (decide (addr = 0))
  | _, _ => .error (.reflectPanic "reflect: call of reflect.Value.IsNil on non-reference Value")

/-- `reflect.Value.SetInt`: stores an `int64`, truncating to the slot's
declared width; panics unless the slot's kind is a signed integer kind. -/
def RValue.setInt (v : RValue) (x : ℤ) : Except Fault RValue :=
  if isSignedInt v.ty.kind then
    .ok ⟨v.ty, .pint (wrapS (kindWidth v.ty.kind) x)⟩
  else .error (.reflectPanic "reflect: call of reflect.Value.SetInt on non-int Value")

/-- `reflect.Value.SetUint`: stores a `uint64`, truncating to the slot's
declared width; panics unless the slot's kind is an unsigned integer kind. -/
def RValue.setUint (v : RValue) (x : ℕ) : Except Fault RValue :=
  if isUnsignedInt v.ty.kind then
    .ok ⟨v.ty, .puint (wrapU (kindWidth v.ty.kind) x)⟩
  else .error (.reflectPanic "reflect: call of reflect.Value.SetUint on non-uint Value")

/-- `reflect.Value.SetFloat`; panics unless the slot's kind is a float kind. -/
def RValue.setFloat (v : RValue) (x : FloatVal) : Except Fault RValue :=
  match v.ty.kind with
  | .KFloat32 => .ok ⟨v.ty, .pfloat x⟩
  | .KFloat64 => .ok ⟨v.ty, .pfloat x⟩
  | _ => .error (.reflectPanic "reflect: call of reflect.Value.SetFloat on non-float Value")

/-- `reflect.Value.SetComplex`; panics unless the slot's kind is a complex
kind. -/
def RValue.setComplex (v : RValue) (x : FloatVal × FloatVal) : Except Fault RValue :=
  match v.ty.kind with
  | .KComplex64 => .ok ⟨v.ty, .pcomplex x.1 x.2⟩
  | .KComplex128 => .ok ⟨v.ty, .pcomplex x.1 x.2⟩
  | _ => .error (.reflectPanic "reflect: call of reflect.Value.SetComplex on non-complex Value")

/-- `reflect.Value.SetString`; panics unless the slot's kind is `String`. -/
def RValue.setString (v : RValue) (x : String) : Except Fault RValue :=
  match v.ty.kind with
  | .KString => .ok ⟨v.ty, .pstr x⟩
  | _ => .error (.reflectPanic "reflect: call of reflect.Value.SetString on non-string Value")

/-- `reflect.Value.SetBool`; panics unless the slot's kind is `Bool`. -/
def RValue.setBool (v : RValue) (x : Bool) : Except Fault RValue :=
  match v.ty.kind with
  | .KBool => .ok ⟨v.ty, .pbool x⟩
  | _ => .error (.reflectPanic "reflect: call of reflect.Value.SetBool on non-bool Value")

/-- The subset of `go/types.BasicKind` the engine sees, including the
untyped-constant kinds.  In `go/types`, `Rune` is an alias of `Int32`
(`types.Typ[types.Rune]` is the `int32` basic type), so no separate `Rune`
constructor exists here. -/
inductive BasicKind where
  | BBool | BInt | BInt8 | BInt16 | BInt32 | BInt64
  | BUint | BUint8 | BUint16 | BUint32 | BUint64 | BUintptr
  | BFloat32 | BFloat64 | BComplex64 | BComplex128 | BString
  | UntypedBool | UntypedInt | UntypedRune | UntypedFloat
  | UntypedComplex | UntypedString | UntypedNil
deriving DecidableEq

def BasicKind.isUntyped : BasicKind → Bool
  | .UntypedBool | .UntypedInt | .UntypedRune | .UntypedFloat
  | .UntypedComplex | .UntypedString | .UntypedNil => true
  | _ => false

/-- A `go/types.Type` as the engine uses it: a basic type, a named
(user-declared) type wrapping a basic underlying type, or a pointer type
standing in for the reference kinds untyped-nil equality compares against. -/
inductive TypeDesc where
  | basic (k : BasicKind)
  | named (name : String) (under : BasicKind)
  | ptrTo (elem : String)
deriving DecidableEq

/-- Modelled from the spec (§4.1): the repository's `isTyped` helper — a
type is typed iff its resolved kind is a concrete (non-untyped) kind. -/
def isTyped : TypeDesc → Bool
  | .basic k => !k.isUntyped
  | .named _ _ => true
  | .ptrTo _ => true

/-- `t.Underlying().(*types.Basic)`: the underlying basic kind, when the
underlying type is a basic type. -/
def TypeDesc.underlyingBasic : TypeDesc → Option BasicKind
  | .basic k => some k
  | .named _ u => some u
  | .ptrTo _ => none

/-- Storage kind of a concrete basic kind; the untyped kinds have no
storage representation. -/
def BasicKind.storageKind : BasicKind → Option Kind
  | .BBool => some .KBool
  | .BInt => some .KInt
  | .BInt8 => some .KInt8
  | .BInt16 => some .KInt16
  | .BInt32 => some .KInt32
  | .BInt64 => some .KInt64
  | .BUint => some .KUint
  | .BUint8 => some .KUint8
  | .BUint16 => some .KUint16
  | .BUint32 => some .KUint32
  | .BUint64 => some .KUint64
  | .BUintptr => some .KUintptr
  | .BFloat32 => some .KFloat32
  | .BFloat64 => some .KFloat64
  | .BComplex64 => some .KComplex64
  | .BComplex128 => some .KComplex128
  | .BString => some .KString
  | _ => none

/-- The Go source-level name of a basic type, as `go/types` prints it. -/
def BasicKind.goName : BasicKind → String
  | .BBool => "bool"
  | .BInt => "int"
  | .BInt8 => "int8"
  | .BInt16 => "int16"
  | .BInt32 => "int32"
  | .BInt64 => "int64"
  | .BUint => "uint"
  | .BUint8 => "uint8"
  | .BUint16 => "uint16"
  | .BUint32 => "uint32"
  | .BUint64 => "uint64"
  | .BUintptr => "uintptr"
  | .BFloat32 => "float32"
  | .BFloat64 => "float64"
  | .BComplex64 => "complex64"
  | .BComplex128 => "complex128"
  | .BString => "string"
  | .UntypedBool => "untyped bool"
  | .UntypedInt => "untyped int"
  | .UntypedRune => "untyped rune"
  | .UntypedFloat => "untyped float"
  | .UntypedComplex => "untyped complex"
  | .UntypedString => "untyped string"
  | .UntypedNil => "untyped nil"

/-- Modelled from the spec: the repository's `TypeString` diagnostic
helper, printing a type the way `go/types` does. -/
def TypeString : TypeDesc → String
  | .basic k => k.goName
  | .named n _ => n
  | .ptrTo e => "*" ++ e

/-- Modelled from the spec (§6 `resolveStorageKind`): `getReflectType`,
the `env.interp.typeMap` registry lookup from a language type to its
storage `reflect.Type`.  A named type resolves to its underlying kind
tagged with the type's identity; untyped-constant kinds are not in the
registry (the lookup yields Go `nil`, here `none`). -/
def getReflectType : TypeDesc → Option RType
  | .basic k => k.storageKind.map (fun kd => ⟨kd, none⟩)
  | .named n u => u.storageKind.map (fun kd => ⟨kd, some n⟩)
  | .ptrTo e => some ⟨.KPtr, some e⟩

/-- Zero payload of each storage kind. -/
def zeroPayload : Kind → Payload
  | .KBool => .pbool false
  | .KInt | .KInt8 | .KInt16 | .KInt32 | .KInt64 => .pint 0
  | .KUint | .KUint8 | .KUint16 | .KUint32 | .KUint64 | .KUintptr => .puint 0
  | .KFloat32 | .KFloat64 => .pfloat (.fin false 0)
  | .KComplex64 | .KComplex128 => .pcomplex (.fin false 0) (.fin false 0)
  | .KString => .pstr ""
  | .KPtr => .pptr 0

/-- Modelled from the spec (§6 `allocateZero`): `getSettableZeroVal`, a
fresh zero-valued settable slot of the given reflect type (the source's
`reflect.New(rtyp).Elem()`). -/
def getSettableZeroVal (rt : RType) : RValue := ⟨rt, zeroPayload rt.kind⟩

/-- An `exact.Value` (`golang.org/x/tools/go/exact`): the exact form of an
untyped constant.  Per spec §3 the exact form is an arbitrary-precision
integer, rational, or complex, a string, a bool, or the nil literal; the
nil literal's placeholder is `nilVal` (its construction is outside
`operator.go`, which never inspects it). -/
inductive ExactValue where
  | intVal (v : ℤ)
  | floatVal (q : ℚ)
  | complexVal (re im : ℚ)
  | strVal (s : String)
  | boolVal (b : Bool)
  | nilVal
deriving DecidableEq

/-- `exact.BoolVal`; panics unless the constant is a Bool. -/
def exactBoolVal : ExactValue → Except Fault Bool
  | .boolVal b => .ok b
  | _ => .error (.runtimePanic "exact: not a Bool")

/-- `exact.StringVal`; panics unless the constant is a String. -/
def exactStringVal : ExactValue → Except Fault String
  | .strVal s => .ok s
  | _ => .error (.runtimePanic "exact: not a String")

/-- `exact.Int64Val` with the `exact` flag dropped, as every call site in
`operator.go` drops it: the constant truncated to a 64-bit two's-complement
value (`math/big.Int.Int64` returns the value reduced mod `2^64`). -/
def exactInt64Val : ExactValue → Except Fault ℤ
  | .intVal v => .ok (wrapS 64 v)
  | _ => .error (.runtimePanic "exact: not an Int")

/-- `exact.Uint64Val` with the `exact` flag dropped.  Values representable
in `int64` are stored as `int64Val` and convert by two's-complement
reinterpretation; larger values are big integers whose `Uint64` is the low
64 bits of the absolute value. -/
def exactUint64Val : ExactValue → Except Fault ℕ
  | .intVal v =>
      .ok (if -(2 ^ 63) ≤ v ∧ v < 2 ^ 63 then toU 64 v else v.natAbs % 2 ^ 64)
  | _ => .error (.runtimePanic "exact: not an Int")

/-- `exact.Float64Val` with the `exact` flag dropped; the model keeps the
exact rational instead of rounding to binary64 (no claim depends on
rounding). -/
def exactFloat64Val : ExactValue → Except Fault ℚ
  | .intVal v => .ok (v : ℚ)
  | .floatVal q => .ok q
  | _ => .error (.runtimePanic "exact: not a Float")

/-- `exact.Real`. -/
def exactReal : ExactValue → ExactValue
  | .complexVal re _ => .floatVal re
  | x => x

/-- `exact.Imag`. -/
def exactImag : ExactValue → ExactValue
  | .complexVal _ im => .floatVal im
  | _ => .floatVal 0

/-- The `interface{}` stored in `Object.Value`: either a `reflect.Value`
(typed runtime value) or an `exact.Value` (untyped constant). -/
inductive GoValue where
  | rv (v : RValue)
  | ev (v : ExactValue)
deriving DecidableEq

/-- `value.(reflect.Value)`: the interface cast, panicking when the value
is not a `reflect.Value`. -/
def GoValue.asReflect : GoValue → Except Fault RValue
  | .rv v => .ok v
  | _ => .error (.runtimePanic "interface conversion: interface is not reflect.Value")

/-- `value.(exact.Value)`: the interface cast, panicking when the value is
not an `exact.Value`. -/
def GoValue.asExact : GoValue → Except Fault ExactValue
  | .ev v => .ok v
  | _ => .error (.runtimePanic "interface conversion: interface is not exact.Value")

/-- Modelled from the spec (§3): the `Object` the engine exchanges — a
value and its language type. -/
structure Object where
  Value : GoValue
  Typ : TypeDesc
deriving DecidableEq

/-- `getTypedObject` (operator.go:82-132): the constant normalizer.  A typed
object is returned unchanged; an untyped constant is promoted to its
default type (`UntypedBool→Bool`, `UntypedInt→Int`, `UntypedFloat→Float64`,
`UntypedComplex→Complex128`, `UntypedRune→Rune` stored as `Int32`,
`UntypedString→String`); an untyped nil is a fatal internal error. -/
def getTypedObject (obj : Object) : Except Fault Object :=
  if isTyped obj.Typ then .ok obj
  else do
    let ev ← obj.Value.asExact
    match obj.Typ.underlyingBasic with
    | some .UntypedBool => do
        let b ← exactBoolVal ev
        pure ⟨.rv ⟨⟨.KBool, none⟩, .pbool b⟩, .basic .BBool⟩
    | some .UntypedInt => do
        let i64 ← exactInt64Val ev
        pure ⟨.rv ⟨⟨.KInt, none⟩, .pint i64⟩, .basic .BInt⟩
    | some .UntypedFloat => do
        let f64 ← exactFloat64Val ev
        pure ⟨.rv ⟨⟨.KFloat64, none⟩, .pfloat (.ofRat f64)⟩, .basic .BFloat64⟩
    | some .UntypedComplex => do
        let re ← exactFloat64Val (exactReal ev)
        let im ← exactFloat64Val (exactImag ev)
        pure ⟨.rv ⟨⟨.KComplex128, none⟩, .pcomplex (.ofRat re) (.ofRat im)⟩,
          .basic .BComplex128⟩
    | some .UntypedRune => do
        let i64 ← exactInt64Val ev
        pure ⟨.rv ⟨⟨.KInt32, none⟩, .pint (wrapS 32 i64)⟩, .basic .BInt32⟩
    | some .UntypedString => do
        let s ← exactStringVal ev
        pure ⟨.rv ⟨⟨.KString, none⟩, .pstr s⟩, .basic .BString⟩
    | some .UntypedNil => .error (.fatalLog "getTypedObject: Got untyped nil")
    | _ => pure obj

/-- The Go runtime fault raised by an integer division or remainder with a
zero divisor.  It is an ordinary runtime panic: recoverable with
`recover`, unlike the engine's `log.Fatal` aborts. -/
def divByZero : Fault := .runtimePanic "runtime error: integer divide by zero"

/-- The kind switch of `operatorAdd` (operator.go:151-202).  Each signed
case performs `intW(lv.Int()) + intW(rv.Int())` — wraparound at the
declared width `W` — and stores the result via `SetInt`; unsigned cases
are the analogue with `SetUint`; float/complex use the model arithmetic;
strings concatenate. -/
def addVals (lv rv : RValue) (newVal : RValue) (lts rts : String) : Except Fault RValue :=
  match lv.ty.kind with
  | .KInt => do let a ← lv.intAcc; let b ← rv.intAcc
                newVal.setInt (wrapS 64 (a + b))
  | .KInt8 => do let a ← lv.intAcc; let b ← rv.intAcc
                 newVal.setInt (wrapS 8 (wrapS 8 a + wrapS 8 b))
  | .KInt16 => do let a ← lv.intAcc; let b ← rv.intAcc
                  newVal.setInt (wrapS 16 (wrapS 16 a + wrapS 16 b))
  | .KInt32 => do let a ← lv.intAcc; let b ← rv.intAcc
                  newVal.setInt (wrapS 32 (wrapS 32 a + wrapS 32 b))
  | .KInt64 => do let a ← lv.intAcc; let b ← rv.intAcc
                  newVal.setInt (wrapS 64 (a + b))
  | .KUint => do let a ← lv.uintAcc; let b ← rv.uintAcc
                 newVal.setUint (wrapU 64 (a + b))
  | .KUint8 => do let a ← lv.uintAcc; let b ← rv.uintAcc
                  newVal.setUint (wrapU 8 (wrapU 8 a + wrapU 8 b))
  | .KUint16 => do let a ← lv.uintAcc; let b ← rv.uintAcc
                   newVal.setUint (wrapU 16 (wrapU 16 a + wrapU 16 b))
  | .KUint32 => do let a ← lv.uintAcc; let b ← rv.uintAcc
                   newVal.setUint (wrapU 32 (wrapU 32 a + wrapU 32 b))
  | .KUint64 => do let a ← lv.uintAcc; let b ← rv.uintAcc
                   newVal.setUint (wrapU 64 (a + b))
  | .KUintptr => do let a ← lv.uintAcc; let b ← rv.uintAcc
                    newVal.setUint (wrapU 64 (a + b))
  | .KFloat32 => do let a ← lv.floatAcc; let b ← rv.floatAcc
                    newVal.setFloat (fadd a b)
  | .KFloat64 => do let a ← lv.floatAcc; let b ← rv.floatAcc
                    newVal.setFloat (fadd a b)
  | .KComplex64 => do let a ← lv.complexAcc; let b ← rv.complexAcc
                      newVal.setComplex (cadd a b)
  | .KComplex128 => do let a ← lv.complexAcc; let b ← rv.complexAcc
                       newVal.setComplex (cadd a b)
  | .KString => newVal.setString (lv.strAcc ++ rv.strAcc)
  | _ => .error (.typeErrorPanic ("Type error: Invalid operands to addition: " ++ lts ++ ", " ++ rts))

/-- `operatorAdd` (operator.go:138-208): normalize both operands, resolve
the left operand's type through the registry, allocate a zero slot of that
type, compute into it, and return a new `Object` of the left operand's
type.  (The `env` parameter of the source carries only the registry, which
is modelled globally by `getReflectType`.) -/
def operatorAdd (left right : Object) : Except Fault Object := do
  let left ← getTypedObject left
  let right ← getTypedObject right
  let lv ← left.Value.asReflect
  let rv ← right.Value.asReflect
  let newTyp := left.Typ
  let newRtyp ← match getReflectType newTyp with
    | some rt => Except.ok rt
    | none => Except.error (.fatalLog "operatorAdd: Couldn't get reflect.Type from types.Type")
  let newVal ← addVals lv rv (getSettableZeroVal newRtyp) (TypeString left.Typ) (TypeString right.Typ)
  pure ⟨.rv newVal, newTyp⟩

/-- The kind switch of `operatorSubtract` (operator.go:224-272): as in
`addVals`, with `-` and without the string case. -/
def subVals (lv rv : RValue) (newVal : RValue) (lts rts : String) : Except Fault RValue :=
  match lv.ty.kind with
  | .KInt => do let a ← lv.intAcc; let b ← rv.intAcc
                newVal.setInt (wrapS 64 (a - b))
  | .KInt8 => do let a ← lv.intAcc; let b ← rv.intAcc
                 newVal.setInt (wrapS 8 (wrapS 8 a - wrapS 8 b))
  | .KInt16 => do let a ← lv.intAcc; let b ← rv.intAcc
                  newVal.setInt (wrapS 16 (wrapS 16 a - wrapS 16 b))
  | .KInt32 => do let a ← lv.intAcc; let b ← rv.intAcc
                  newVal.setInt (wrapS 32 (wrapS 32 a - wrapS 32 b))
  | .KInt64 => do let a ← lv.intAcc; let b ← rv.intAcc
                  newVal.setInt (wrapS 64 (a - b))
  | .KUint => do let a ← lv.uintAcc; let b ← rv.uintAcc
                 newVal.setUint (wrapU 64 (wrapU 64 a + 2 ^ 64 - wrapU 64 b))
  | .KUint8 => do let a ← lv.uintAcc; let b ← rv.uintAcc
                  newVal.setUint (wrapU 8 (wrapU 8 a + 2 ^ 8 - wrapU 8 b))
  | .KUint16 => do let a ← lv.uintAcc; let b ← rv.uintAcc
                   newVal.setUint (wrapU 16 (wrapU 16 a + 2 ^ 16 - wrapU 16 b))
  | .KUint32 => do let a ← lv.uintAcc; let b ← rv.uintAcc
                   newVal.setUint (wrapU 32 (wrapU 32 a + 2 ^ 32 - wrapU 32 b))
  | .KUint64 => do let a ← lv.uintAcc; let b ← rv.uintAcc
                   newVal.setUint (wrapU 64 (wrapU 64 a + 2 ^ 64 - wrapU 64 b))
  | .KUintptr => do let a ← lv.uintAcc; let b ← rv.uintAcc
                    newVal.setUint (wrapU 64 (wrapU 64 a + 2 ^ 64 - wrapU 64 b))
  | .KFloat32 => do let a ← lv.floatAcc; let b ← rv.floatAcc
                    newVal.setFloat (fsub a b)
  | .KFloat64 => do let a ← lv.floatAcc; let b ← rv.floatAcc
                    newVal.setFloat (fsub a b)
  | .KComplex64 => do let a ← lv.complexAcc; let b ← rv.complexAcc
                      newVal.setComplex (csub a b)
  | .KComplex128 => do let a ← lv.complexAcc; let b ← rv.complexAcc
                       newVal.setComplex (csub a b)
  | _ => .error (.typeErrorPanic ("Type error: Invalid operands to subtraction: " ++ lts ++ ", " ++ rts))

/-- `operatorSubtract` (operator.go:211-277). -/
def operatorSubtract (left right : Object) : Except Fault Object := do
  let left ← getTypedObject left
  let right ← getTypedObject right
  let lv ← left.Value.asReflect
  let rv ← right.Value.asReflect
  let newTyp := left.Typ
  let newRtyp ← match getReflectType newTyp with
    | some rt => Except.ok rt
    | none => Except.error (.fatalLog "operatorSubtract: Couldn't get reflect.Type from types.Type")
  let newVal ← subVals lv rv (getSettableZeroVal newRtyp) (TypeString left.Typ) (TypeString right.Typ)
  pure ⟨.rv newVal, newTyp⟩

/-- The kind switch of `operatorMultiply` (operator.go:293-341). -/
def mulVals (lv rv : RValue) (newVal : RValue) (lts rts : String) : Except Fault RValue :=
  match lv.ty.kind with
  | .KInt => do let a ← lv.intAcc; let b ← rv.intAcc
                newVal.setInt (wrapS 64 (a * b))
  | .KInt8 => do let a ← lv.intAcc; let b ← rv.intAcc
                 newVal.setInt (wrapS 8 (wrapS 8 a * wrapS 8 b))
  | .KInt16 => do let a ← lv.intAcc; let b ← rv.intAcc
                  newVal.setInt (wrapS 16 (wrapS 16 a * wrapS 16 b))
  | .KInt32 => do let a ← lv.intAcc; let b ← rv.intAcc
                  newVal.setInt (wrapS 32 (wrapS 32 a * wrapS 32 b))
  | .KInt64 => do let a ← lv.intAcc; let b ← rv.intAcc
                  newVal.setInt (wrapS 64 (a * b))
  | .KUint => do let a ← lv.uintAcc; let b ← rv.uintAcc
                 newVal.setUint (wrapU 64 (a * b))
  | .KUint8 => do let a ← lv.uintAcc; let b ← rv.uintAcc
                  newVal.setUint (wrapU 8 (wrapU 8 a * wrapU 8 b))
  | .KUint16 => do let a ← lv.uintAcc; let b ← rv.uintAcc
                   newVal.setUint (wrapU 16 (wrapU 16 a * wrapU 16 b))
  | .KUint32 => do let a ← lv.uintAcc; let b ← rv.uintAcc
                   newVal.setUint (wrapU 32 (wrapU 32 a * wrapU 32 b))
  | .KUint64 => do let a ← lv.uintAcc; let b ← rv.uintAcc
                   newVal.setUint (wrapU 64 (a * b))
  | .KUintptr => do let a ← lv.uintAcc; let b ← rv.uintAcc
                    newVal.setUint (wrapU 64 (a * b))
  | .KFloat32 => do let a ← lv.floatAcc; let b ← rv.floatAcc
                    newVal.setFloat (fmul a b)
  | .KFloat64 => do let a ← lv.floatAcc; let b ← rv.floatAcc
                    newVal.setFloat (fmul a b)
  | .KComplex64 => do let a ← lv.complexAcc; let b ← rv.complexAcc
                      newVal.setComplex (cmul a b)
  | .KComplex128 => do let a ← lv.complexAcc; let b ← rv.complexAcc
                       newVal.setComplex (cmul a b)
  | _ => .error (.typeErrorPanic ("Type error: Invalid operands to multiplication: " ++ lts ++ ", " ++ rts))

/-- `operatorMultiply` (operator.go:280-346). -/
def operatorMultiply (left right : Object) : Except Fault Object := do
  let left ← getTypedObject left
  let right ← getTypedObject right
  let lv ← left.Value.asReflect
  let rv ← right.Value.asReflect
  let newTyp := left.Typ
  let newRtyp ← match getReflectType newTyp with
    | some rt => Except.ok rt
    | none => Except.error (.fatalLog "operatorMultiply: Couldn't get reflect.Type from types.Type")
  let newVal ← mulVals lv rv (getSettableZeroVal newRtyp) (TypeString left.Typ) (TypeString right.Typ)
  pure ⟨.rv newVal, newTyp⟩

/-- The kind switch of `operatorQuotient` (operator.go:362-409).  Go's `/`
on a width-`W` signed type truncates toward zero and wraps at `W` (only
`minInt / -1` overflows); with a zero divisor the Go runtime panics —
that panic is the `divByZero` fault.  Float and complex division never
panic. -/
def quotVals (lv rv : RValue) (newVal : RValue) (lts rts : String) : Except Fault RValue :=
  match lv.ty.kind with
  | .KInt => do let a ← lv.intAcc; let b ← rv.intAcc
                if wrapS 64 b = 0 then .error divByZero
                else newVal.setInt (wrapS 64 (Int.tdiv (wrapS 64 a) (wrapS 64 b)))
  | .KInt8 => do let a ← lv.intAcc; let b ← rv.intAcc
                 if wrapS 8 b = 0 then .error divByZero
                 else newVal.setInt (wrapS 8 (Int.tdiv (wrapS 8 a) (wrapS 8 b)))
  | .KInt16 => do let a ← lv.intAcc; let b ← rv.intAcc
                  if wrapS 16 b = 0 then .error divByZero
                  else newVal.setInt (wrapS 16 (Int.tdiv (wrapS 16 a) (wrapS 16 b)))
  | .KInt32 => do let a ← lv.intAcc; let b ← rv.intAcc
                  if wrapS 32 b = 0 then .error divByZero
                  else newVal.setInt (wrapS 32 (Int.tdiv (wrapS 32 a) (wrapS 32 b)))
  | .KInt64 => do let a ← lv.intAcc; let b ← rv.intAcc
                  if wrapS 64 b = 0 then .error divByZero
                  else newVal.setInt (wrapS 64 (Int.tdiv (wrapS 64 a) (wrapS 64 b)))
  | .KUint => do let a ← lv.uintAcc; let b ← rv.uintAcc
                 if wrapU 64 b = 0 then .error divByZero
                 else newVal.setUint (wrapU 64 a / wrapU 64 b)
  | .KUint8 => do let a ← lv.uintAcc; let b ← rv.uintAcc
                  if wrapU 8 b = 0 then .error divByZero
                  else newVal.setUint (wrapU 8 a / wrapU 8 b)
  | .KUint16 => do let a ← lv.uintAcc; let b ← rv.uintAcc
                   if wrapU 16 b = 0 then .error divByZero
                   else newVal.setUint (wrapU 16 a / wrapU 16 b)
  | .KUint32 => do let a ← lv.uintAcc; let b ← rv.uintAcc
                   if wrapU 32 b = 0 then .error divByZero
                   else newVal.setUint (wrapU 32 a / wrapU 32 b)
  | .KUint64 => do let a ← lv.uintAcc; let b ← rv.uintAcc
                   if wrapU 64 b = 0 then .error divByZero
                   else newVal.setUint (wrapU 64 a / wrapU 64 b)
  | .KUintptr => do let a ← lv.uintAcc; let b ← rv.uintAcc
                    if wrapU 64 b = 0 then .error divByZero
                    else newVal.setUint (wrapU 64 a / wrapU 64 b)
  | .KFloat32 => do let a ← lv.floatAcc; let b ← rv.floatAcc
                    newVal.setFloat (fdivF a b)
  | .KFloat64 => do let a ← lv.floatAcc; let b ← rv.floatAcc
                    newVal.setFloat (fdivF a b)
  | .KComplex64 => do let a ← lv.complexAcc; let b ← rv.complexAcc
                      newVal.setComplex (cdiv a b)
  | .KComplex128 => do let a ← lv.complexAcc; let b ← rv.complexAcc
                       newVal.setComplex (cdiv a b)
  | _ => .error (.typeErrorPanic ("Type error: Invalid operands to division: " ++ lts ++ ", " ++ rts))

/-- `operatorQuotient` (operator.go:349-415). -/
def operatorQuotient (left right : Object) : Except Fault Object := do
  let left ← getTypedObject left
  let right ← getTypedObject right
  let lv ← left.Value.asReflect
  let rv ← right.Value.asReflect
  let newTyp := left.Typ
  let newRtyp ← match getReflectType newTyp with
    | some rt => Except.ok rt
    | none => Except.error (.fatalLog "operatorQuotient: Couldn't get reflect.Type from types.Type")
  let newVal ← quotVals lv rv (getSettableZeroVal newRtyp) (TypeString left.Typ) (TypeString right.Typ)
  pure ⟨.rv newVal, newTyp⟩

/-- The kind switch of `operatorRemainder` (operator.go:431-466): integer
kinds only; Go's `%` takes the dividend's sign (`Int.tmod`) and panics on
a zero divisor. -/
def remVals (lv rv : RValue) (newVal : RValue) (lts rts : String) : Except Fault RValue :=
  match lv.ty.kind with
  | .KInt => do let a ← lv.intAcc; let b ← rv.intAcc
                if wrapS 64 b = 0 then .error divByZero
                else newVal.setInt (wrapS 64 (Int.tmod (wrapS 64 a) (wrapS 64 b)))
  | .KInt8 => do let a ← lv.intAcc; let b ← rv.intAcc
                 if wrapS 8 b = 0 then .error divByZero
                 else newVal.setInt (wrapS 8 (Int.tmod (wrapS 8 a) (wrapS 8 b)))
  | .KInt16 => do let a ← lv.intAcc; let b ← rv.intAcc
                  if wrapS 16 b = 0 then .error divByZero
                  else newVal.setInt (wrapS 16 (Int.tmod (wrapS 16 a) (wrapS 16 b)))
  | .KInt32 => do let a ← lv.intAcc; let b ← rv.intAcc
                  if wrapS 32 b = 0 then .error divByZero
                  else newVal.setInt (wrapS 32 (Int.tmod (wrapS 32 a) (wrapS 32 b)))
  | .KInt64 => do let a ← lv.intAcc; let b ← rv.intAcc
                  if wrapS 64 b = 0 then .error divByZero
                  else newVal.setInt (wrapS 64 (Int.tmod (wrapS 64 a) (wrapS 64 b)))
  | .KUint => do let a ← lv.uintAcc; let b ← rv.uintAcc
                 if wrapU 64 b = 0 then .error divByZero
                 else newVal.setUint (wrapU 64 a % wrapU 64 b)
  | .KUint8 => do let a ← lv.uintAcc; let b ← rv.uintAcc
                  if wrapU 8 b = 0 then .error divByZero
                  else newVal.setUint (wrapU 8 a % wrapU 8 b)
  | .KUint16 => do let a ← lv.uintAcc; let b ← rv.uintAcc
                   if wrapU 16 b = 0 then .error divByZero
                   else newVal.setUint (wrapU 16 a % wrapU 16 b)
  | .KUint32 => do let a ← lv.uintAcc; let b ← rv.uintAcc
                   if wrapU 32 b = 0 then .error divByZero
                   else newVal.setUint (wrapU 32 a % wrapU 32 b)
  | .KUint64 => do let a ← lv.uintAcc; let b ← rv.uintAcc
                   if wrapU 64 b = 0 then .error divByZero
                   else newVal.setUint (wrapU 64 a % wrapU 64 b)
  | .KUintptr => do let a ← lv.uintAcc; let b ← rv.uintAcc
                    if wrapU 64 b = 0 then .error divByZero
                    else newVal.setUint (wrapU 64 a % wrapU 64 b)
  | _ => .error (.typeErrorPanic ("Type error: Invalid operands to % operator: " ++ lts ++ ", " ++ rts))

/-- `operatorRemainder` (operator.go:418-472).  (In diagnostic strings the
source quotes operator symbols, e.g. a quoted `%`; the quotes are dropped
here.  No claim depends on these strings' exact text.) -/
def operatorRemainder (left right : Object) : Except Fault Object := do
  let left ← getTypedObject left
  let right ← getTypedObject right
  let lv ← left.Value.asReflect
  let rv ← right.Value.asReflect
  let newTyp := left.Typ
  let newRtyp ← match getReflectType newTyp with
    | some rt => Except.ok rt
    | none => Except.error (.fatalLog "operatorRemainder: Couldn't get reflect.Type from types.Type")
  let newVal ← remVals lv rv (getSettableZeroVal newRtyp) (TypeString left.Typ) (TypeString right.Typ)
  pure ⟨.rv newVal, newTyp⟩

/-- Bitwise and-not on `w`-bit patterns: `x &^ y = x & ^y`. -/
def uAndNot (w : ℕ) (x y : ℕ) : ℕ := Nat.land x (Nat.xor (wrapU w y) (2 ^ w - 1))

/-- The kind switch of `operatorAnd` (operator.go:488-523): bitwise AND on
the two's-complement bit patterns at the declared width. -/
def andVals (lv rv : RValue) (newVal : RValue) (lts rts : String) : Except Fault RValue :=
  match lv.ty.kind with
  | .KInt => do let a ← lv.intAcc; let b ← rv.intAcc
                newVal.setInt (wrapS 64 (Nat.land (toU 64 a) (toU 64 b)))
  | .KInt8 => do let a ← lv.intAcc; let b ← rv.intAcc
                 newVal.setInt (wrapS 8 (Nat.land (toU 8 a) (toU 8 b)))
  | .KInt16 => do let a ← lv.intAcc; let b ← rv.intAcc
                  newVal.setInt (wrapS 16 (Nat.land (toU 16 a) (toU 16 b)))
  | .KInt32 => do let a ← lv.intAcc; let b ← rv.intAcc
                  newVal.setInt (wrapS 32 (Nat.land (toU 32 a) (toU 32 b)))
  | .KInt64 => do let a ← lv.intAcc; let b ← rv.intAcc
                  newVal.setInt (wrapS 64 (Nat.land (toU 64 a) (toU 64 b)))
  | .KUint => do let a ← lv.uintAcc; let b ← rv.uintAcc
                 newVal.setUint (Nat.land (wrapU 64 a) (wrapU 64 b))
  | .KUint8 => do let a ← lv.uintAcc; let b ← rv.uintAcc
                  newVal.setUint (Nat.land (wrapU 8 a) (wrapU 8 b))
  | .KUint16 => do let a ← lv.uintAcc; let b ← rv.uintAcc
                   newVal.setUint (Nat.land (wrapU 16 a) (wrapU 16 b))
  | .KUint32 => do let a ← lv.uintAcc; let b ← rv.uintAcc
                   newVal.setUint (Nat.land (wrapU 32 a) (wrapU 32 b))
  | .KUint64 => do let a ← lv.uintAcc; let b ← rv.uintAcc
                   newVal.setUint (Nat.land (wrapU 64 a) (wrapU 64 b))
  | .KUintptr => do let a ← lv.uintAcc; let b ← rv.uintAcc
                    newVal.setUint (Nat.land (wrapU 64 a) (wrapU 64 b))
  | _ => .error (.typeErrorPanic ("Type error: Invalid operands to & operator: " ++ lts ++ ", " ++ rts))

/-- `operatorAnd` (operator.go:475-529). -/
def operatorAnd (left right : Object) : Except Fault Object := do
  let left ← getTypedObject left
  let right ← getTypedObject right
  let lv ← left.Value.asReflect
  let rv ← right.Value.asReflect
  let newTyp := left.Typ
  let newRtyp ← match getReflectType newTyp with
    | some rt => Except.ok rt
    | none => Except.error (.fatalLog "operatorAnd: Couldn't get reflect.Type from types.Type")
  let newVal ← andVals lv rv (getSettableZeroVal newRtyp) (TypeString left.Typ) (TypeString right.Typ)
  pure ⟨.rv newVal, newTyp⟩

/-- The kind switch of `operatorOr` (operator.go:545-580). -/
def orVals (lv rv : RValue) (newVal : RValue) (lts rts : String) : Except Fault RValue :=
  match lv.ty.kind with
  | .KInt => do let a ← lv.intAcc; let b ← rv.intAcc
                newVal.setInt (wrapS 64 (Nat.lor (toU 64 a) (toU 64 b)))
  | .KInt8 => do let a ← lv.intAcc; let b ← rv.intAcc
                 newVal.setInt (wrapS 8 (Nat.lor (toU 8 a) (toU 8 b)))
  | .KInt16 => do let a ← lv.intAcc; let b ← rv.intAcc
                  newVal.setInt (wrapS 16 (Nat.lor (toU 16 a) (toU 16 b)))
  | .KInt32 => do let a ← lv.intAcc; let b ← rv.intAcc
                  newVal.setInt (wrapS 32 (Nat.lor (toU 32 a) (toU 32 b)))
  | .KInt64 => do let a ← lv.intAcc; let b ← rv.intAcc
                  newVal.setInt (wrapS 64 (Nat.lor (toU 64 a) (toU 64 b)))
  | .KUint => do let a ← lv.uintAcc; let b ← rv.uintAcc
                 newVal.setUint (Nat.lor (wrapU 64 a) (wrapU 64 b))
  | .KUint8 => do let a ← lv.uintAcc; let b ← rv.uintAcc
                  newVal.setUint (Nat.lor (wrapU 8 a) (wrapU 8 b))
  | .KUint16 => do let a ← lv.uintAcc; let b ← rv.uintAcc
                   newVal.setUint (Nat.lor (wrapU 16 a) (wrapU 16 b))
  | .KUint32 => do let a ← lv.uintAcc; let b ← rv.uintAcc
                   newVal.setUint (Nat.lor (wrapU 32 a) (wrapU 32 b))
  | .KUint64 => do let a ← lv.uintAcc; let b ← rv.uintAcc
                   newVal.setUint (Nat.lor (wrapU 64 a) (wrapU 64 b))
  | .KUintptr => do let a ← lv.uintAcc; let b ← rv.uintAcc
                    newVal.setUint (Nat.lor (wrapU 64 a) (wrapU 64 b))
  | _ => .error (.typeErrorPanic ("Type error: Invalid operands to | operator: " ++ lts ++ ", " ++ rts))

/-- `operatorOr` (operator.go:532-586). -/
def operatorOr (left right : Object) : Except Fault Object := do
  let left ← getTypedObject left
  let right ← getTypedObject right
  let lv ← left.Value.asReflect
  let rv ← right.Value.asReflect
  let newTyp := left.Typ
  let newRtyp ← match getReflectType newTyp with
    | some rt => Except.ok rt
    | none => Except.error (.fatalLog "operatorOr: Couldn't get reflect.Type from types.Type")
  let newVal ← orVals lv rv (getSettableZeroVal newRtyp) (TypeString left.Typ) (TypeString right.Typ)
  pure ⟨.rv newVal, newTyp⟩

/-- The kind switch of `operatorXor` (operator.go:602-637). -/
def xorVals (lv rv : RValue) (newVal : RValue) (lts rts : String) : Except Fault RValue :=
  match lv.ty.kind with
  | .KInt => do let a ← lv.intAcc; let b ← rv.intAcc
                newVal.setInt (wrapS 64 (Nat.xor (toU 64 a) (toU 64 b)))
  | .KInt8 => do let a ← lv.intAcc; let b ← rv.intAcc
                 newVal.setInt (wrapS 8 (Nat.xor (toU 8 a) (toU 8 b)))
  | .KInt16 => do let a ← lv.intAcc; let b ← rv.intAcc
                  newVal.setInt (wrapS 16 (Nat.xor (toU 16 a) (toU 16 b)))
  | .KInt32 => do let a ← lv.intAcc; let b ← rv.intAcc
                  newVal.setInt (wrapS 32 (Nat.xor (toU 32 a) (toU 32 b)))
  | .KInt64 => do let a ← lv.intAcc; let b ← rv.intAcc
                  newVal.setInt (wrapS 64 (Nat.xor (toU 64 a) (toU 64 b)))
  | .KUint => do let a ← lv.uintAcc; let b ← rv.uintAcc
                 newVal.setUint (Nat.xor (wrapU 64 a) (wrapU 64 b))
  | .KUint8 => do let a ← lv.uintAcc; let b ← rv.uintAcc
                  newVal.setUint (Nat.xor (wrapU 8 a) (wrapU 8 b))
  | .KUint16 => do let a ← lv.uintAcc; let b ← rv.uintAcc
                   newVal.setUint (Nat.xor (wrapU 16 a) (wrapU 16 b))
  | .KUint32 => do let a ← lv.uintAcc; let b ← rv.uintAcc
                   newVal.setUint (Nat.xor (wrapU 32 a) (wrapU 32 b))
  | .KUint64 => do let a ← lv.uintAcc; let b ← rv.uintAcc
                   newVal.setUint (Nat.xor (wrapU 64 a) (wrapU 64 b))
  | .KUintptr => do let a ← lv.uintAcc; let b ← rv.uintAcc
                    newVal.setUint (Nat.xor (wrapU 64 a) (wrapU 64 b))
  | _ => .error (.typeErrorPanic ("Type error: Invalid operands to ^ operator: " ++ lts ++ ", " ++ rts))

/-- `operatorXor` (operator.go:589-643). -/
def operatorXor (left right : Object) : Except Fault Object := do
  let left ← getTypedObject left
  let right ← getTypedObject right
  let lv ← left.Value.asReflect
  let rv ← right.Value.asReflect
  let newTyp := left.Typ
  let newRtyp ← match getReflectType newTyp with
    | some rt => Except.ok rt
    | none => Except.error (.fatalLog "operatorXor: Couldn't get reflect.Type from types.Type")
  let newVal ← xorVals lv rv (getSettableZeroVal newRtyp) (TypeString left.Typ) (TypeString right.Typ)
  pure ⟨.rv newVal, newTyp⟩

/-- The kind switch of `operatorAndNot` (operator.go:659-694). -/
def andNotVals (lv rv : RValue) (newVal : RValue) (lts rts : String) : Except Fault RValue :=
  match lv.ty.kind with
  | .KInt => do let a ← lv.intAcc; let b ← rv.intAcc
                newVal.setInt (wrapS 64 (uAndNot 64 (toU 64 a) (toU 64 b)))
  | .KInt8 => do let a ← lv.intAcc; let b ← rv.intAcc
                 newVal.setInt (wrapS 8 (uAndNot 8 (toU 8 a) (toU 8 b)))
  | .KInt16 => do let a ← lv.intAcc; let b ← rv.intAcc
                  newVal.setInt (wrapS 16 (uAndNot 16 (toU 16 a) (toU 16 b)))
  | .KInt32 => do let a ← lv.intAcc; let b ← rv.intAcc
                  newVal.setInt (wrapS 32 (uAndNot 32 (toU 32 a) (toU 32 b)))
  | .KInt64 => do let a ← lv.intAcc; let b ← rv.intAcc
                  newVal.setInt (wrapS 64 (uAndNot 64 (toU 64 a) (toU 64 b)))
  | .KUint => do let a ← lv.uintAcc; let b ← rv.uintAcc
                 newVal.setUint (uAndNot 64 (wrapU 64 a) (wrapU 64 b))
  | .KUint8 => do let a ← lv.uintAcc; let b ← rv.uintAcc
                  newVal.setUint (uAndNot 8 (wrapU 8 a) (wrapU 8 b))
  | .KUint16 => do let a ← lv.uintAcc; let b ← rv.uintAcc
                   newVal.setUint (uAndNot 16 (wrapU 16 a) (wrapU 16 b))
  | .KUint32 => do let a ← lv.uintAcc; let b ← rv.uintAcc
                   newVal.setUint (uAndNot 32 (wrapU 32 a) (wrapU 32 b))
  | .KUint64 => do let a ← lv.uintAcc; let b ← rv.uintAcc
                   newVal.setUint (uAndNot 64 (wrapU 64 a) (wrapU 64 b))
  | .KUintptr => do let a ← lv.uintAcc; let b ← rv.uintAcc
                    newVal.setUint (uAndNot 64 (wrapU 64 a) (wrapU 64 b))
  | _ => .error (.typeErrorPanic ("Type error: Invalid operands to &^ operator: " ++ lts ++ ", " ++ rts))

/-- `operatorAndNot` (operator.go:646-700). -/
def operatorAndNot (left right : Object) : Except Fault Object := do
  let left ← getTypedObject left
  let right ← getTypedObject right
  let lv ← left.Value.asReflect
  let rv ← right.Value.asReflect
  let newTyp := left.Typ
  let newRtyp ← match getReflectType newTyp with
    | some rt => Except.ok rt
    | none => Except.error (.fatalLog "operatorAndNot: Couldn't get reflect.Type from types.Type")
  let newVal ← andNotVals lv rv (getSettableZeroVal newRtyp) (TypeString left.Typ) (TypeString right.Typ)
  pure ⟨.rv newVal, newTyp⟩

/-- Shift-count extraction shared verbatim by `operatorShiftRight`
(operator.go:707-714) and `operatorShiftLeft` (operator.go:771-778): if the
right operand is a typed `reflect.Value`, read it with `Uint` (which
panics in `reflect` unless its kind is unsigned); otherwise it is an
`exact.Value`, converted to a `uint64` with `exact.Uint64Val` and wrapped
back into a `reflect.Value`, whose `Uint` is that number. -/
def shiftAmount (right : Object) : Except Fault ℕ :=
  match right.Value with
  | .rv rvv => rvv.uintAcc
  | .ev evv => exactUint64Val evv

/-- The kind switch of `operatorShiftRight` (operator.go:723-758): signed
kinds shift arithmetically (floor division by `2^amt` — on `ℤ`, `/` with a
positive divisor is floor division — i.e. sign-extending), unsigned kinds
logically.  `Uint64` is present here,
unlike in `shlVals`. -/
def shrVals (lv : RValue) (amt : ℕ) (newVal : RValue) (lts rts : String) : Except Fault RValue :=
  match lv.ty.kind with
  | .KInt => do let a ← lv.intAcc
                newVal.setInt (wrapS 64 a / 2 ^ amt)
  | .KInt8 => do let a ← lv.intAcc
                 newVal.setInt (wrapS 8 a / 2 ^ amt)
  | .KInt16 => do let a ← lv.intAcc
                  newVal.setInt (wrapS 16 a / 2 ^ amt)
  | .KInt32 => do let a ← lv.intAcc
                  newVal.setInt (wrapS 32 a / 2 ^ amt)
  | .KInt64 => do let a ← lv.intAcc
                  newVal.setInt (wrapS 64 a / 2 ^ amt)
  | .KUint => do let a ← lv.uintAcc
                 newVal.setUint (wrapU 64 a / 2 ^ amt)
  | .KUint8 => do let a ← lv.uintAcc
                  newVal.setUint (wrapU 8 a / 2 ^ amt)
  | .KUint16 => do let a ← lv.uintAcc
                   newVal.setUint (wrapU 16 a / 2 ^ amt)
  | .KUint32 => do let a ← lv.uintAcc
                   newVal.setUint (wrapU 32 a / 2 ^ amt)
  | .KUint64 => do let a ← lv.uintAcc
                   newVal.setUint (wrapU 64 a / 2 ^ amt)
  | .KUintptr => do let a ← lv.uintAcc
                    newVal.setUint (wrapU 64 a / 2 ^ amt)
  | _ => .error (.typeErrorPanic ("Type error: Invalid operands to shift: " ++ lts ++ ", " ++ rts))

/-- `operatorShiftRight` (operator.go:703-764): only the left operand is
normalized; the shift count is extracted by `shiftAmount` without being
normalized to the left operand's width. -/
def operatorShiftRight (left right : Object) : Except Fault Object := do
  let left ← getTypedObject left
  let lv ← left.Value.asReflect
  let amt ← shiftAmount right
  let newTyp := left.Typ
  let newRtyp ← match getReflectType newTyp with
    | some rt => Except.ok rt
    | none => Except.error (.fatalLog "operatorShiftRight: Couldn't get reflect.Type from types.Type")
  let newVal ← shrVals lv amt (getSettableZeroVal newRtyp) (TypeString left.Typ) (TypeString right.Typ)
  pure ⟨.rv newVal, newTyp⟩

/-- The kind switch of `operatorShiftLeft` (operator.go:787-819).  The
source's switch lists `Int, Int8, Int16, Int32, Int64, Uint, Uint8,
Uint16, Uint32, Uintptr` — it has no `Uint64` case, so a `Uint64` left
operand falls into the default panic branch. -/
def shlVals (lv : RValue) (amt : ℕ) (newVal : RValue) (lts rts : String) : Except Fault RValue :=
  match lv.ty.kind with
  | .KInt => do let a ← lv.intAcc
                newVal.setInt (wrapS 64 (wrapS 64 a * 2 ^ amt))
  | .KInt8 => do let a ← lv.intAcc
                 newVal.setInt (wrapS 8 (wrapS 8 a * 2 ^ amt))
  | .KInt16 => do let a ← lv.intAcc
                  newVal.setInt (wrapS 16 (wrapS 16 a * 2 ^ amt))
  | .KInt32 => do let a ← lv.intAcc
                  newVal.setInt (wrapS 32 (wrapS 32 a * 2 ^ amt))
  | .KInt64 => do let a ← lv.intAcc
                  newVal.setInt (wrapS 64 (wrapS 64 a * 2 ^ amt))
  | .KUint => do let a ← lv.uintAcc
                 newVal.setUint (wrapU 64 (wrapU 64 a * 2 ^ amt))
  | .KUint8 => do let a ← lv.uintAcc
                  newVal.setUint (wrapU 8 (wrapU 8 a * 2 ^ amt))
  | .KUint16 => do let a ← lv.uintAcc
                   newVal.setUint (wrapU 16 (wrapU 16 a * 2 ^ amt))
  | .KUint32 => do let a ← lv.uintAcc
                   newVal.setUint (wrapU 32 (wrapU 32 a * 2 ^ amt))
  | .KUintptr => do let a ← lv.uintAcc
                    newVal.setUint (wrapU 64 (wrapU 64 a * 2 ^ amt))
  | _ => .error (.typeErrorPanic ("Type error: Invalid operands to shift: " ++ lts ++ ", " ++ rts))

/-- `operatorShiftLeft` (operator.go:767-825). -/
def operatorShiftLeft (left right : Object) : Except Fault Object := do
  let left ← getTypedObject left
  let lv ← left.Value.asReflect
  let amt ← shiftAmount right
  let newTyp := left.Typ
  let newRtyp ← match getReflectType newTyp with
    | some rt => Except.ok rt
    | none => Except.error (.fatalLog "operatorShiftLeft: Couldn't get reflect.Type from types.Type")
  let newVal ← shlVals lv amt (getSettableZeroVal newRtyp) (TypeString left.Typ) (TypeString right.Typ)
  pure ⟨.rv newVal, newTyp⟩

/-- Result construction shared (verbatim in the source) by all comparison
operators (e.g. operator.go:851-868 for `<`): if the caller-supplied
result type is a named type, materialize a fresh zero value of its reflect
type via the registry and `SetBool` it (which panics in `reflect` if the
named type's underlying kind is not Bool); otherwise the result is a plain
`bool` value.  `fname` is the operator name used in the `log.Fatal`
diagnostic. -/
def mkCmpResult (fname : String) (b : Bool) (typ : TypeDesc) : Except Fault Object :=
  match typ with
  | .named _ _ =>
    match getReflectType typ with
    | none => .error (.fatalLog (fname ++ ": Couldn't get reflect.Type from types.Type"))
    | some rt => do
        let nv ← (getSettableZeroVal rt).setBool b
        pure ⟨.rv nv, typ⟩
  | _ => pure ⟨.rv ⟨⟨.KBool, none⟩, .pbool b⟩, typ⟩

/-- The kind switch of `operatorLess` (operator.go:838-849): signed order,
unsigned order, IEEE float order (false on NaN), byte-wise string order. -/
def lessVals (lv rv : RValue) (lts rts : String) : Except Fault Bool :=
  match lv.ty.kind with
  | .KInt | .KInt8 | .KInt16 | .KInt32 | .KInt64 => do
      let a ← lv.intAcc
      let b ← rv.intAcc
      pure (decide (a < b))
  | .KUint | .KUint8 | .KUint16 | .KUint32 | .KUint64 | .KUintptr => do
      let a ← lv.uintAcc
      let b ← rv.uintAcc
      pure (decide (a < b))
  | .KFloat32 | .KFloat64 => do
      let a ← lv.floatAcc
      let b ← rv.floatAcc
      pure (flt a b)
  | .KString => pure (decide (lv.strAcc < rv.strAcc))
  | _ => .error (.typeErrorPanic ("Type error: Invalid operands to ordered comparison: " ++ lts ++ ", " ++ rts))

/-- `operatorLess` (operator.go:831-869). -/
def operatorLess (left right : Object) (typ : TypeDesc) : Except Fault Object := do
  let left ← getTypedObject left
  let right ← getTypedObject right
  let lv ← left.Value.asReflect
  let rv ← right.Value.asReflect
  let less ← lessVals lv rv (TypeString left.Typ) (TypeString right.Typ)
  mkCmpResult "operatorLess" less typ

/-- The kind switch of `operatorGreater` (operator.go:882-893). -/
def greaterVals (lv rv : RValue) (lts rts : String) : Except Fault Bool :=
  match lv.ty.kind with
  | .KInt | .KInt8 | .KInt16 | .KInt32 | .KInt64 => do
      let a ← lv.intAcc
      let b ← rv.intAcc
      pure (decide (b < a))
  | .KUint | .KUint8 | .KUint16 | .KUint32 | .KUint64 | .KUintptr => do
      let a ← lv.uintAcc
      let b ← rv.uintAcc
      pure (decide (b < a))
  | .KFloat32 | .KFloat64 => do
      let a ← lv.floatAcc
      let b ← rv.floatAcc
      pure (flt b a)
  | .KString => pure (decide (rv.strAcc < lv.strAcc))
  | _ => .error (.typeErrorPanic ("Type error: Invalid operands to ordered comparison: " ++ lts ++ ", " ++ rts))

/-- `operatorGreater` (operator.go:875-913). -/
def operatorGreater (left right : Object) (typ : TypeDesc) : Except Fault Object := do
  let left ← getTypedObject left
  let right ← getTypedObject right
  let lv ← left.Value.asReflect
  let rv ← right.Value.asReflect
  let greater ← greaterVals lv rv (TypeString left.Typ) (TypeString right.Typ)
  mkCmpResult "operatorGreater" greater typ

/-- The kind switch of `operatorLessEqual` (operator.go:926-937). -/
def lessEqualVals (lv rv : RValue) (lts rts : String) : Except Fault Bool :=
  match lv.ty.kind with
  | .KInt | .KInt8 | .KInt16 | .KInt32 | .KInt64 => do
      let a ← lv.intAcc
      let b ← rv.intAcc
      pure (decide (a ≤ b))
  | .KUint | .KUint8 | .KUint16 | .KUint32 | .KUint64 | .KUintptr => do
      let a ← lv.uintAcc
      let b ← rv.uintAcc
      pure (decide (a ≤ b))
  | .KFloat32 | .KFloat64 => do
      let a ← lv.floatAcc
      let b ← rv.floatAcc
      pure (fle a b)
  | .KString => pure (decide (lv.strAcc ≤ rv.strAcc))
  | _ => .error (.typeErrorPanic ("Type error: Invalid operands to ordered comparison: " ++ lts ++ ", " ++ rts))

/-- `operatorLessEqual` (operator.go:919-957). -/
def operatorLessEqual (left right : Object) (typ : TypeDesc) : Except Fault Object := do
  let left ← getTypedObject left
  let right ← getTypedObject right
  let lv ← left.Value.asReflect
  let rv ← right.Value.asReflect
  let lessEqual ← lessEqualVals lv rv (TypeString left.Typ) (TypeString right.Typ)
  mkCmpResult "operatorLessEqual" lessEqual typ

/-- The kind switch of `operatorGreaterEqual` (operator.go:970-981). -/
def greaterEqualVals (lv rv : RValue) (lts rts : String) : Except Fault Bool :=
  match lv.ty.kind with
  | .KInt | .KInt8 | .KInt16 | .KInt32 | .KInt64 => do
      let a ← lv.intAcc
      let b ← rv.intAcc
      pure (decide (b ≤ a))
  | .KUint | .KUint8 | .KUint16 | .KUint32 | .KUint64 | .KUintptr => do
      let a ← lv.uintAcc
      let b ← rv.uintAcc
      pure (decide (b ≤ a))
  | .KFloat32 | .KFloat64 => do
      let a ← lv.floatAcc
      let b ← rv.floatAcc
      pure (fle b a)
  | .KString => pure (decide (rv.strAcc ≤ lv.strAcc))
  | _ => .error (.typeErrorPanic ("Type error: Invalid operands to ordered comparison: " ++ lts ++ ", " ++ rts))

/-- `operatorGreaterEqual` (operator.go:963-1001). -/
def operatorGreaterEqual (left right : Object) (typ : TypeDesc) : Except Fault Object := do
  let left ← getTypedObject left
  let right ← getTypedObject right
  let lv ← left.Value.asReflect
  let rv ← right.Value.asReflect
  let greaterEqual ← greaterEqualVals lv rv (TypeString left.Typ) (TypeString right.Typ)
  mkCmpResult "operatorGreaterEqual" greaterEqual typ

/-- The `isUntypedNil` closure of `operatorEqual` (operator.go:1008-1017). -/
def isUntypedNilT (t : TypeDesc) : Bool :=
  if isTyped t then false
  else match t.underlyingBasic with
    | some .UntypedNil => true
    | _ => false

/-- Go `==` on the data stored in two `reflect.Value`s boxed as
`interface{}` (operator.go:1040): dynamic types must coincide and the
payloads compare with the type's own equality — IEEE `==` on floats and
complex numbers (so NaN is unequal to everything), structural equality
elsewhere. -/
def payloadEq : Payload → Payload → Bool
  | .pint a, .pint b => decide (a = b)
  | .puint a, .puint b => decide (a = b)
  | .pfloat a, .pfloat b => feq a b
  | .pcomplex ar ai, .pcomplex br bi => feq ar br && feq ai bi
  | .pstr a, .pstr b => decide (a = b)
  | .pbool a, .pbool b => decide (a = b)
  | .pptr a, .pptr b => decide (a = b)
  | _, _ => false

/-- `lv.Interface() == rv.Interface()`. -/
def valueEq (lv rv : RValue) : Bool :=
  decide (lv.ty = rv.ty) && payloadEq lv.payload rv.payload

/-- `go/types.Identical` on the engine's type descriptors: two descriptors
are identical iff they denote the same declared type. -/
def identicalT (a b : TypeDesc) : Bool := decide (a = b)

/-- `go/types.AssignableTo` restricted to the engine's descriptors: `a` is
assignable to `b` iff they are identical, or they have identical
underlying types and at least one of them is not a named type. -/
def assignableToT (a b : TypeDesc) : Bool :=
  identicalT a b ||
    (match a, b with
     | .basic k, .named _ u => decide (k = u)
     | .named _ u, .basic k => decide (u = k)
     | _, _ => false)

/-- `reflect.Value.Convert` (operator.go:1042/1045), modelled for the
conversions reachable from the assignability checks of `operatorEqual`:
conversions between integer kinds reinterpret/truncate the value at the
target width; conversions between types sharing a non-integer storage kind
keep the datum.  Conversions outside this set are out of the claims'
scope and fault. -/
def convertVal (v : RValue) (tgt : RType) : Except Fault RValue :=
  match v.payload with
  | .pint a =>
      if isSignedInt tgt.kind then .ok ⟨tgt, .pint (wrapS (kindWidth tgt.kind) a)⟩
      else if isUnsignedInt tgt.kind then .ok ⟨tgt, .puint (toU (kindWidth tgt.kind) a)⟩
      else .error (.reflectPanic "reflect: conversion not modelled")
  | .puint a =>
      if isSignedInt tgt.kind then .ok ⟨tgt, .pint (wrapS (kindWidth tgt.kind) a)⟩
      else if isUnsignedInt tgt.kind then .ok ⟨tgt, .puint (wrapU (kindWidth tgt.kind) a)⟩
      else .error (.reflectPanic "reflect: conversion not modelled")
  | .pfloat f =>
      match tgt.kind with
      | .KFloat32 => .ok ⟨tgt, .pfloat f⟩
      | .KFloat64 => .ok ⟨tgt, .pfloat f⟩
      | _ => .error (.reflectPanic "reflect: conversion not modelled")
  | .pcomplex re im =>
      match tgt.kind with
      | .KComplex64 => .ok ⟨tgt, .pcomplex re im⟩
      | .KComplex128 => .ok ⟨tgt, .pcomplex re im⟩
      | _ => .error (.reflectPanic "reflect: conversion not modelled")
  | .pstr s =>
      match tgt.kind with
      | .KString => .ok ⟨tgt, .pstr s⟩
      | _ => .error (.reflectPanic "reflect: conversion not modelled")
  | .pbool b =>
      match tgt.kind with
      | .KBool => .ok ⟨tgt, .pbool b⟩
      | _ => .error (.reflectPanic "reflect: conversion not modelled")
  | .pptr a =>
      match tgt.kind with
      | .KPtr => .ok ⟨tgt, .pptr a⟩
      | _ => .error (.reflectPanic "reflect: conversion not modelled")

/-- The per-operand normalization of `operatorEqual`
(operator.go:1019-1031): an untyped-nil operand is left alone (`none`);
any other operand is normalized and its `reflect.Value` extracted. -/
def equalNormalize (obj : Object) : Except Fault (Option (Object × RValue)) :=
  if isUntypedNilT obj.Typ then pure none
  else do
    let o ← getTypedObject obj
    let v ← o.Value.asReflect
    pure (some (o, v))

/-- The equality switch of `operatorEqual` (operator.go:1033-1047): two
untyped nils are equal; one untyped nil compares the other operand against
its nil state via `IsNil`; otherwise identical types compare directly, and
non-identical types convert along assignability (left into right, else
right into left) before comparing. -/
def equalVals (lp rp : Option (Object × RValue)) : Except Fault Bool :=
  match lp, rp with
  | none, none => pure true
  | none, some (_, rvv) => rvv.isNilAcc
  | some (_, lvv), none => lvv.isNilAcc
  | some (l, lvv), some (r, rvv) =>
    if identicalT l.Typ r.Typ then pure (valueEq lvv rvv)
    else if assignableToT l.Typ r.Typ then do
      let clv ← convertVal lvv rvv.ty
      pure (valueEq clv rvv)
    else do
      let crv ← convertVal rvv lvv.ty
      pure (valueEq lvv crv)

/-- `operatorEqual` (operator.go:1007-1067).  The result is typed by
`mkCmpResult` like every other comparison. -/
def operatorEqual (left right : Object) (typ : TypeDesc) : Except Fault Object := do
  let lp ← equalNormalize left
  let rp ← equalNormalize right
  let equal ← equalVals lp rp
  mkCmpResult "operatorEqual" equal typ

/-- The operator tokens the two dispatch switches handle. -/
inductive Token where
  | ADD | SUB | MUL | QUO | REM
  | AND | OR | XOR | AND_NOT | SHL | SHR
  | LSS | GTR | LEQ | GEQ | EQL
deriving DecidableEq

/-- `doBinaryOp` (operator.go:30-60): dispatch for arithmetic and bitwise
binary operators; any other token is a fatal "not implemented" abort. -/
def doBinaryOp (left right : Object) (op : Token) : Except Fault Object :=
  match op with
  | .ADD => operatorAdd left right
  | .SUB => operatorSubtract left right
  | .MUL => operatorMultiply left right
  | .QUO => operatorQuotient left right
  | .REM => operatorRemainder left right
  | .AND => operatorAnd left right
  | .OR => operatorOr left right
  | .XOR => operatorXor left right
  | .AND_NOT => operatorAndNot left right
  | .SHR => operatorShiftRight left right
  | .SHL => operatorShiftLeft left right
  | _ => .error (.fatalLog "Binary operator not implemented yet")

/-- `doBinaryComparisonOp` (operator.go:62-80). -/
def doBinaryComparisonOp (left right : Object) (op : Token) (typ : TypeDesc) : Except Fault Object :=
  match op with
  | .LSS => operatorLess left right typ
  | .GTR => operatorGreater left right typ
  | .LEQ => operatorLessEqual left right typ
  | .GEQ => operatorGreaterEqual left right typ
  | .EQL => operatorEqual left right typ
  | _ => .error (.fatalLog "Binary comparison operator not implemented yet")

/-! ## Proof toolkit -/

@[simp]
lemma ok_bind {α β : Type} (a : α) (f : α → Except Fault β) :
    (Except.ok a >>= f) = f a := rfl

@[simp]
lemma error_bind {α β : Type} (e : Fault) (f : α → Except Fault β) :
    ((Except.error e : Except Fault α) >>= f) = .error e := rfl

@[simp]
lemma map_ok {α β : Type} (f : α → β) (a : α) :
    (f <$> (Except.ok a : Except Fault α)) = .ok (f a) := rfl

@[simp]
lemma map_error {α β : Type} (f : α → β) (e : Fault) :
    (f <$> (Except.error e : Except Fault α)) = .error e := rfl

@[simp]
lemma isOk_ok {α : Type} (a : α) : (Except.ok a : Except Fault α).isOk = true := rfl

@[simp]
lemma pure_eq_ok {α : Type} (a : α) : (pure a : Except Fault α) = .ok a := rfl

lemma bind_eq_ok {α β : Type} {x : Except Fault α} {f : α → Except Fault β} {b : β} :
    (x >>= f) = .ok b ↔ ∃ a, x = .ok a ∧ f a = .ok b := by
  cases x <;> simp [Bind.bind, Except.bind]

instance {ε α : Type} [DecidableEq ε] [DecidableEq α] : DecidableEq (Except ε α) := fun x y =>
  match x, y with
  | .ok a, .ok b =>
    match decEq a b with
    | .isTrue h => .isTrue (h ▸ rfl)
    | .isFalse h => .isFalse (fun hh => h (by cases hh; rfl))
  | .error e1, .error e2 =>
    match decEq e1 e2 with
    | .isTrue h => .isTrue (h ▸ rfl)
    | .isFalse h => .isFalse (fun hh => h (by cases hh; rfl))
  | .ok _, .error _ => .isFalse (fun hh => by cases hh)
  | .error _, .ok _ => .isFalse (fun hh => by cases hh)

/-- The basic type of each concrete storage kind (`KPtr`, which has no
basic type, is mapped arbitrarily; it is only ever applied to the
integer/float/complex/string/bool kinds). -/
def kindBasic : Kind → BasicKind
  | .KBool => .BBool
  | .KInt => .BInt
  | .KInt8 => .BInt8
  | .KInt16 => .BInt16
  | .KInt32 => .BInt32
  | .KInt64 => .BInt64
  | .KUint => .BUint
  | .KUint8 => .BUint8
  | .KUint16 => .BUint16
  | .KUint32 => .BUint32
  | .KUint64 => .BUint64
  | .KUintptr => .BUintptr
  | .KFloat32 => .BFloat32
  | .KFloat64 => .BFloat64
  | .KComplex64 => .BComplex64
  | .KComplex128 => .BComplex128
  | .KString => .BString
  | .KPtr => .BString

/-- The eleven integer kinds of the engine. -/
def intKinds : List Kind :=
  [.KInt, .KInt8, .KInt16, .KInt32, .KInt64,
   .KUint, .KUint8, .KUint16, .KUint32, .KUint64, .KUintptr]

/-- An `Object` of the predeclared basic type of integer kind `k` holding
the integer `a` (a signed payload for signed kinds, unsigned otherwise). -/
def mkIntVal (k : Kind) (a : ℤ) : Object :=
  ⟨.rv ⟨⟨k, none⟩, if isSignedInt k then .pint a else .puint a.toNat⟩, .basic (kindBasic k)⟩

/-- `a` is representable in integer kind `k`. -/
def intRepr (k : Kind) (a : ℤ) : Prop :=
  if isSignedInt k then -(2 ^ (kindWidth k - 1)) ≤ a ∧ a < 2 ^ (kindWidth k - 1)
  else 0 ≤ a ∧ a < 2 ^ kindWidth k

instance (k : Kind) (a : ℤ) : Decidable (intRepr k a) := by
  unfold intRepr
  split <;> infer_instance

/-- Reinterpretation of a `w`-bit pattern as a signed value, written the
way the spec phrases it (two's-complement decode): the number itself if it
is below `2^(w-1)`, otherwise the number minus `2^w`. -/
def reinterpS (w : ℕ) (n : ℕ) : ℤ :=
  if n < 2 ^ (w - 1) then (n : ℤ) else (n : ℤ) - 2 ^ w

/-- "(a+b) mod 2^W reinterpreted in K's signedness" — the value an
integer-kind bit pattern denotes. -/
def reinterp (k : Kind) (n : ℕ) : ℤ :=
  if isSignedInt k then reinterpS (kindWidth k) n else (n : ℤ)

/-! ## C1: integer addition wraps at the declared width -/

set_option maxHeartbeats 2000000 in
/-- **C1.** For every integer Kind `K` with bit width `W` and all values
`a`, `b` representable in `K`, `Add` on two Objects of Kind `K` returns
the value `(a+b) mod 2^W` reinterpreted in `K`'s signedness; in
particular `Add(Int8(120), Int8(10))` returns `Int8(-126)`.  (The
narrowing to the declared width is performed before the result is stored:
the stored payload itself is the narrowed value.) -/
theorem C1_add_wraparound :
    (∀ k, k ∈ intKinds → ∀ a b : ℤ, intRepr k a → intRepr k b →
      operatorAdd (mkIntVal k a) (mkIntVal k b) =
        .ok (mkIntVal k (reinterp k (((a + b) % (2 ^ kindWidth k : ℤ)).toNat)))) ∧
    operatorAdd (mkIntVal .KInt8 120) (mkIntVal .KInt8 10) = .ok (mkIntVal .KInt8 (-126)) := by
  constructor
  · intro k hk a b ha hb
    fin_cases hk <;>
      simp [intRepr, kindWidth, isSignedInt] at ha hb <;>
      simp [operatorAdd, addVals, getTypedObject, isTyped, BasicKind.isUntyped, mkIntVal,
        GoValue.asReflect, getReflectType, BasicKind.storageKind, kindBasic, isSignedInt,
        isUnsignedInt, RValue.intAcc, RValue.uintAcc, RValue.setInt, RValue.setUint,
        getSettableZeroVal, zeroPayload, kindWidth, wrapS, wrapU, reinterp, reinterpS] <;>
      omega
  · decide

/-- Witness for C1 at a concrete input: kind `Int8`, `a = 120`, `b = 10`. -/
theorem C1_add_wraparound_witness :
    operatorAdd (mkIntVal .KInt8 120) (mkIntVal .KInt8 10) =
      .ok (mkIntVal .KInt8 (reinterp .KInt8 (((120 + 10 : ℤ) % (2 ^ kindWidth .KInt8 : ℤ)).toNat))) :=
  C1_add_wraparound.1 .KInt8 (by decide) 120 10 (by decide) (by decide)

/-! ## C2: division and remainder by a runtime zero divisor -/

set_option maxHeartbeats 2000000 in
/-- **C2.** For every pair of integer-Kind Objects whose right operand is
zero, `Quotient` and `Remainder` raise the division-by-zero fault — the Go
runtime panic, which is recoverable (the evaluator can `recover` it) and
is not in the internal-consistency class (`log.Fatal` aborts and
`"Type error"` panics); in particular `Quotient(Int(1), Int(0))` yields
that dynamic fault.  -/
theorem C2_div_by_zero_recoverable :
    (∀ k, k ∈ intKinds → ∀ a : ℤ,
      operatorQuotient (mkIntVal k a) (mkIntVal k 0) = .error divByZero ∧
      operatorRemainder (mkIntVal k a) (mkIntVal k 0) = .error divByZero) ∧
    operatorQuotient (mkIntVal .KInt 1) (mkIntVal .KInt 0) = .error divByZero ∧
    divByZero.recoverable = true ∧
    divByZero.isInternalConsistency = false ∧
    (∀ msg, divByZero ≠ .fatalLog msg ∧ divByZero ≠ .typeErrorPanic msg) := by
  refine ⟨?_, rfl, rfl, rfl, by intro msg; exact ⟨by simp [divByZero], by simp [divByZero]⟩⟩
  intro k hk a
  fin_cases hk <;>
    constructor <;>
      simp [operatorQuotient, operatorRemainder, quotVals, remVals, getTypedObject, isTyped,
        BasicKind.isUntyped, mkIntVal, GoValue.asReflect, getReflectType, BasicKind.storageKind,
        kindBasic, isSignedInt, isUnsignedInt, RValue.intAcc, RValue.uintAcc,
        getSettableZeroVal, zeroPayload, kindWidth, wrapS, wrapU]

/-- Witness for C2 at a concrete input: `Quotient(Int(1), Int(0))` and
`Remainder(Int(1), Int(0))` both fault with the recoverable
division-by-zero panic. -/
theorem C2_div_by_zero_recoverable_witness :
    operatorQuotient (mkIntVal .KInt 1) (mkIntVal .KInt 0) = .error divByZero ∧
    operatorRemainder (mkIntVal .KInt 1) (mkIntVal .KInt 0) = .error divByZero :=
  C2_div_by_zero_recoverable.1 .KInt (by decide) 1

/-! ## C3: the constant normalizer -/

/-- **C3.** `getTypedObject` returns its argument unchanged for every
Object of a concrete (non-untyped) type, applies exactly the default
promotions to untyped constants — `UntypedBool→Bool`, `UntypedInt→Int`
with the exact constant truncated to 64 bits (no overflow diagnostic),
`UntypedFloat→Float64`, `UntypedComplex→Complex128`, `UntypedRune→Rune`
stored as `Int32`, `UntypedString→String` — and hits the fatal
internal-consistency abort on an `UntypedNil` input. -/
theorem C3_getTypedObject_normalization :
    (∀ obj : Object, isTyped obj.Typ = true → getTypedObject obj = .ok obj) ∧
    (∀ b, getTypedObject ⟨.ev (.boolVal b), .basic .UntypedBool⟩ =
      .ok ⟨.rv ⟨⟨.KBool, none⟩, .pbool b⟩, .basic .BBool⟩) ∧
    (∀ v : ℤ, getTypedObject ⟨.ev (.intVal v), .basic .UntypedInt⟩ =
      .ok ⟨.rv ⟨⟨.KInt, none⟩, .pint (wrapS 64 v)⟩, .basic .BInt⟩) ∧
    (∀ q : ℚ, getTypedObject ⟨.ev (.floatVal q), .basic .UntypedFloat⟩ =
      .ok ⟨.rv ⟨⟨.KFloat64, none⟩, .pfloat (.ofRat q)⟩, .basic .BFloat64⟩) ∧
    (∀ re im : ℚ, getTypedObject ⟨.ev (.complexVal re im), .basic .UntypedComplex⟩ =
      .ok ⟨.rv ⟨⟨.KComplex128, none⟩, .pcomplex (.ofRat re) (.ofRat im)⟩, .basic .BComplex128⟩) ∧
    (∀ v : ℤ, getTypedObject ⟨.ev (.intVal v), .basic .UntypedRune⟩ =
      .ok ⟨.rv ⟨⟨.KInt32, none⟩, .pint (wrapS 32 (wrapS 64 v))⟩, .basic .BInt32⟩) ∧
    (∀ s, getTypedObject ⟨.ev (.strVal s), .basic .UntypedString⟩ =
      .ok ⟨.rv ⟨⟨.KString, none⟩, .pstr s⟩, .basic .BString⟩) ∧
    (∀ ev : ExactValue, getTypedObject ⟨.ev ev, .basic .UntypedNil⟩ =
      .error (.fatalLog "getTypedObject: Got untyped nil")) := by
  refine ⟨?_, fun b => rfl, fun v => rfl, fun q => rfl, fun re im => rfl,
    fun v => rfl, fun s => rfl, fun ev => rfl⟩
  intro obj h
  simp [getTypedObject, h]

/-- Witness for C3's conditional part at a concrete input: an `Int8`-typed
object passes through `getTypedObject` unchanged. -/
theorem C3_getTypedObject_normalization_witness :
    getTypedObject (mkIntVal .KInt8 7) = .ok (mkIntVal .KInt8 7) :=
  C3_getTypedObject_normalization.1 (mkIntVal .KInt8 7) (by decide)

/-! ## C10: ShiftLeft's kind dispatch omits Uint64 -/

/-- **C10.** `ShiftLeft`'s kind switch has no `Uint64` case: every
`Uint64` left operand falls into the fatal default branch
`"Invalid operands to shift"`, while `ShiftRight` and every other
arithmetic/bitwise operator accept `Uint64` operands. -/
theorem C10_shiftLeft_uint64_missing :
    (∀ n m : ℕ, operatorShiftLeft (mkIntVal .KUint64 n) (mkIntVal .KUint m) =
      .error (.typeErrorPanic "Type error: Invalid operands to shift: uint64, uint")) ∧
    (∀ n m : ℕ, (operatorShiftRight (mkIntVal .KUint64 n) (mkIntVal .KUint m)).isOk = true) ∧
    (∀ t, t ∈ ([.ADD, .SUB, .MUL, .AND, .OR, .XOR, .AND_NOT] : List Token) →
      ∀ n m : ℕ, (doBinaryOp (mkIntVal .KUint64 n) (mkIntVal .KUint64 m) t).isOk = true) ∧
    (∀ n m : ℕ, wrapU 64 m ≠ 0 →
      (operatorQuotient (mkIntVal .KUint64 n) (mkIntVal .KUint64 m)).isOk = true ∧
      (operatorRemainder (mkIntVal .KUint64 n) (mkIntVal .KUint64 m)).isOk = true) := by
  refine ⟨fun n m => rfl, fun n m => rfl, ?_, ?_⟩
  · intro t ht n m
    fin_cases ht <;> rfl
  · intro n m hm
    constructor <;>
      simp [operatorQuotient, operatorRemainder, quotVals, remVals, getTypedObject, isTyped,
        BasicKind.isUntyped, mkIntVal, GoValue.asReflect, getReflectType,
        BasicKind.storageKind, kindBasic, isSignedInt, isUnsignedInt, RValue.uintAcc,
        RValue.setUint, getSettableZeroVal, zeroPayload, kindWidth, hm]

/-- Witness for C10's conditional parts at concrete inputs. -/
theorem C10_shiftLeft_uint64_missing_witness :
    (doBinaryOp (mkIntVal .KUint64 5) (mkIntVal .KUint64 3) .ADD).isOk = true ∧
    (operatorQuotient (mkIntVal .KUint64 5) (mkIntVal .KUint64 3)).isOk = true :=
  ⟨C10_shiftLeft_uint64_missing.2.2.1 .ADD (by decide) 5 3,
   (C10_shiftLeft_uint64_missing.2.2.2 5 3 (by decide)).1⟩

/-! ## C5: ShiftRight is arithmetic on signed kinds, logical on unsigned -/

lemma wrapS_eq_self {w : ℕ} (hw : 0 < w) {x : ℤ}
    (h1 : -(2 ^ (w - 1)) ≤ x) (h2 : x < 2 ^ (w - 1)) : wrapS w x = x := by
  have h2w : (2 : ℤ) ^ w = 2 ^ (w - 1) * 2 := by
    conv_lhs => rw [show w = (w - 1) + 1 from by omega]
    rw [pow_succ]
  unfold wrapS
  rw [Int.emod_eq_of_lt (by linarith) (by linarith)]
  ring

lemma ediv_pow_range {M a : ℤ} (hM : 0 < M) (h1 : -M ≤ a) (h2 : a < M) (n : ℕ) :
    -M ≤ a / 2 ^ n ∧ a / 2 ^ n < M := by
  have hp : (0 : ℤ) < 2 ^ n := pow_pos (by norm_num) n
  constructor
  · rw [Int.le_ediv_iff_mul_le hp]
    calc -M * 2 ^ n ≤ -M * 1 :=
          mul_le_mul_of_nonpos_left (by omega) (by linarith)
      _ ≤ a := by linarith
  · calc a / 2 ^ n ≤ (M - 1) / 2 ^ n := Int.ediv_le_ediv hp (by linarith)
      _ ≤ M - 1 := Int.ediv_le_self _ (by linarith)
      _ < M := by linarith

lemma wrapS_ediv_pow {w : ℕ} (hw : 0 < w) {a : ℤ}
    (h1 : -(2 ^ (w - 1)) ≤ a) (h2 : a < 2 ^ (w - 1)) (n : ℕ) :
    wrapS w (wrapS w a / 2 ^ n) = a / 2 ^ n := by
  rw [wrapS_eq_self hw h1 h2]
  have h := ediv_pow_range (pow_pos (by norm_num) (w - 1)) h1 h2 n
  exact wrapS_eq_self hw h.1 h.2

lemma toNat_cast_ediv_pow (v n : ℕ) : ((v : ℤ) / (2 : ℤ) ^ n).toNat = v / 2 ^ n := by
  have h : ((v : ℤ)) / (2 : ℤ) ^ n = ((v / 2 ^ n : ℕ) : ℤ) := by
    rw [Int.ofNat_ediv]
    push_cast
    ring
  rw [h, Int.toNat_natCast]

lemma wrapU_div_pow {w : ℕ} {a : ℕ} (h : a < 2 ^ w) (n : ℕ) :
    wrapU w (wrapU w a / 2 ^ n) = a / 2 ^ n := by
  unfold wrapU
  rw [Nat.mod_eq_of_lt h, Nat.mod_eq_of_lt (lt_of_le_of_lt (Nat.div_le_self a (2 ^ n)) h)]

/-- The five signed integer kinds. -/
def signedKinds : List Kind := [.KInt, .KInt8, .KInt16, .KInt32, .KInt64]

/-- The six unsigned integer kinds. -/
def unsignedKinds : List Kind := [.KUint, .KUint8, .KUint16, .KUint32, .KUint64, .KUintptr]

set_option maxHeartbeats 4000000 in
/-- **C5.** `ShiftRight` is arithmetic (sign-extending) on every signed
integer kind — the resulting value is the floor `a / 2^n`, which for
negative `a` is exactly the sign-extended shift — and logical
(zero-filling) on every unsigned kind — the value is the `ℕ`-division
`v / 2^n` of the bit pattern; in particular
`ShiftRight(Int8(-8), Uint(1)) = Int8(-4)` and
`ShiftRight(Uint8(248), Uint(1)) = Uint8(124)`. -/
theorem C5_shiftRight_sign_extension :
    (∀ k, k ∈ signedKinds → ∀ a : ℤ, intRepr k a → ∀ n : ℕ,
      operatorShiftRight (mkIntVal k a) (mkIntVal .KUint n) = .ok (mkIntVal k (a / 2 ^ n))) ∧
    (∀ k, k ∈ unsignedKinds → ∀ v : ℕ, v < 2 ^ kindWidth k → ∀ n : ℕ,
      operatorShiftRight (mkIntVal k v) (mkIntVal .KUint n) = .ok (mkIntVal k ((v / 2 ^ n : ℕ) : ℤ))) ∧
    operatorShiftRight (mkIntVal .KInt8 (-8)) (mkIntVal .KUint 1) = .ok (mkIntVal .KInt8 (-4)) ∧
    operatorShiftRight (mkIntVal .KUint8 248) (mkIntVal .KUint 1) = .ok (mkIntVal .KUint8 124) := by
  refine ⟨?_, ?_, by decide, by decide⟩
  · intro k hk a ha n
    fin_cases hk <;>
      simp [intRepr, kindWidth, isSignedInt] at ha <;>
      simp [operatorShiftRight, shrVals, shiftAmount, getTypedObject, isTyped,
        BasicKind.isUntyped, mkIntVal, GoValue.asReflect, getReflectType, BasicKind.storageKind,
        kindBasic, isSignedInt, isUnsignedInt, RValue.intAcc, RValue.uintAcc, RValue.setInt,
        RValue.setUint, getSettableZeroVal, zeroPayload, kindWidth, Int.toNat_natCast] <;>
      exact wrapS_ediv_pow (by norm_num) (by omega) (by omega) n
  · intro k hk v hv n
    fin_cases hk <;>
      simp [kindWidth] at hv <;>
      simp [operatorShiftRight, shrVals, shiftAmount, getTypedObject, isTyped,
        BasicKind.isUntyped, mkIntVal, GoValue.asReflect, getReflectType, BasicKind.storageKind,
        kindBasic, isSignedInt, isUnsignedInt, RValue.intAcc, RValue.uintAcc, RValue.setInt,
        RValue.setUint, getSettableZeroVal, zeroPayload, kindWidth, Int.toNat_natCast,
        toNat_cast_ediv_pow] <;>
      (refine wrapU_div_pow ?_ n
       omega)

/-- Witness for C5 at concrete inputs: both example shifts, obtained from
the general law. -/
theorem C5_shiftRight_sign_extension_witness :
    operatorShiftRight (mkIntVal .KInt8 (-8)) (mkIntVal .KUint 1) =
      .ok (mkIntVal .KInt8 ((-8 : ℤ) / 2 ^ 1)) ∧
    operatorShiftRight (mkIntVal .KUint8 248) (mkIntVal .KUint 1) =
      .ok (mkIntVal .KUint8 ((248 / 2 ^ 1 : ℕ) : ℤ)) :=
  ⟨C5_shiftRight_sign_extension.1 .KInt8 (by decide) (-8) (by decide) 1,
   C5_shiftRight_sign_extension.2.1 .KUint8 (by decide) 248 (by decide) 1⟩

/-! ## C7: Equal on untyped-nil operands -/

/-- An `Object` of pointer type (`*elem`) holding address `addr`; address
`0` is the nil pointer. -/
def ptrObj (elem : String) (addr : ℕ) : Object :=
  ⟨.rv ⟨⟨.KPtr, some elem⟩, .pptr addr⟩, .ptrTo elem⟩

/-- The plain `bool` Object a comparison produces when the result type is
the predeclared `bool`. -/
def boolObj (b : Bool) : Object := ⟨.rv ⟨⟨.KBool, none⟩, .pbool b⟩, .basic .BBool⟩

/-- **C7.** `Equal` with untyped-nil operands: two untyped nils compare
equal (whatever placeholder `Value` the nil Objects carry); when exactly
one operand is untyped nil, the result is `true` exactly when the other
(reference-kind) operand holds its nil/zero representation. -/
theorem C7_untyped_nil_equality :
    (∀ v v' : GoValue,
      operatorEqual ⟨v, .basic .UntypedNil⟩ ⟨v', .basic .UntypedNil⟩ (.basic .BBool) =
        .ok (boolObj true)) ∧
    (∀ (v : GoValue) (e : String) (addr : ℕ),
      operatorEqual ⟨v, .basic .UntypedNil⟩ (ptrObj e addr) (.basic .BBool) =
        .ok (boolObj (decide (addr = 0)))) ∧
    (∀ (v : GoValue) (e : String) (addr : ℕ),
      operatorEqual (ptrObj e addr) ⟨v, .basic .UntypedNil⟩ (.basic .BBool) =
        .ok (boolObj (decide (addr = 0)))) :=
  ⟨fun v v' => rfl, fun v e addr => rfl, fun v e addr => rfl⟩

/-! ## C8: Equal is reflexive on non-NaN values; NaN is unequal to itself -/

/-- A payload contains no float/complex NaN. -/
def noNaN : Payload → Bool
  | .pfloat .nan => false
  | .pcomplex .nan _ => false
  | .pcomplex _ .nan => false
  | _ => true

lemma payloadEq_refl {p : Payload} (h : noNaN p = true) : payloadEq p p = true := by
  cases p with
  | pfloat f => cases f <;> simp_all [noNaN, payloadEq, feq]
  | pcomplex re im => cases re <;> cases im <;> simp_all [noNaN, payloadEq, feq]
  | _ => simp [payloadEq]

/-- A float64 NaN Object. -/
def nanObj : Object := ⟨.rv ⟨⟨.KFloat64, none⟩, .pfloat .nan⟩, .basic .BFloat64⟩

/-- A complex128 Object with a NaN real part. -/
def cnanObj : Object :=
  ⟨.rv ⟨⟨.KComplex128, none⟩, .pcomplex .nan (.fin false 0)⟩, .basic .BComplex128⟩

/-- **C8.** `Equal(a, a)` is `true` for every typed value `a` whose payload
holds no float/complex NaN; float and complex equality is exact IEEE
representation equality, so `Equal(NaN, NaN)` is `false` for both float
and complex kinds. -/
theorem C8_equal_reflexive_and_nan :
    (∀ (t : TypeDesc) (v : RValue), isTyped t = true → noNaN v.payload = true →
      operatorEqual ⟨.rv v, t⟩ ⟨.rv v, t⟩ (.basic .BBool) = .ok (boolObj true)) ∧
    operatorEqual nanObj nanObj (.basic .BBool) = .ok (boolObj false) ∧
    operatorEqual cnanObj cnanObj (.basic .BBool) = .ok (boolObj false) := by
  refine ⟨?_, by decide, by decide⟩
  intro t v ht hn
  simp [operatorEqual, equalNormalize, equalVals, isUntypedNilT, ht, getTypedObject,
    GoValue.asReflect, identicalT, valueEq, payloadEq_refl hn, mkCmpResult, boolObj]

/-- Witness for C8's conditional part at a concrete input: an `Int`-typed
value compares equal to itself. -/
theorem C8_equal_reflexive_and_nan_witness :
    operatorEqual ⟨.rv ⟨⟨.KInt, none⟩, .pint 42⟩, .basic .BInt⟩
      ⟨.rv ⟨⟨.KInt, none⟩, .pint 42⟩, .basic .BInt⟩ (.basic .BBool) = .ok (boolObj true) :=
  C8_equal_reflexive_and_nan.1 (.basic .BInt) ⟨⟨.KInt, none⟩, .pint 42⟩ (by decide) (by decide)

/-! ## C4: the shift count operand -/

/-- An untyped integer constant Object. -/
def untypedConst (n : ℤ) : Object := ⟨.ev (.intVal n), .basic .UntypedInt⟩

/-- A float64 Object, an invalid left operand for shifts. -/
def floatOneObj : Object := ⟨.rv ⟨⟨.KFloat64, none⟩, .pfloat (.fin false 1)⟩, .basic .BFloat64⟩

/-- **C4, counterexample.**  The claim says the shift count "may be any
typed integer Object ... extracted as a non-negative 64-bit count".  A
*signed* typed count refutes it: `ShiftLeft(Uint8(1), Int(3))` panics
inside `reflect.Value.Uint` (which requires an unsigned kind) instead of
extracting the count 3.  Moreover the two count representations do not
give literally identical results on every left operand: on an invalid
left operand the fatal diagnostic quotes the count's type, so the faults
differ. -/
theorem C4_typed_signed_count_refutes :
    operatorShiftLeft (mkIntVal .KUint8 1) (mkIntVal .KInt 3) =
      .error (.reflectPanic "reflect: call of reflect.Value.Uint on non-uint Value") ∧
    operatorShiftLeft floatOneObj (untypedConst 3) ≠
      operatorShiftLeft floatOneObj (mkIntVal .KUint 3) := by
  constructor
  · rfl
  · decide

lemma shlVals_rts_irrel (lv : RValue) (amt : ℕ) (z : RValue) (lts r1 r2 : String)
    (v : RValue) :
    shlVals lv amt z lts r1 = .ok v ↔ shlVals lv amt z lts r2 = .ok v := by
  unfold shlVals
  split <;> simp

lemma shrVals_rts_irrel (lv : RValue) (amt : ℕ) (z : RValue) (lts r1 r2 : String)
    (v : RValue) :
    shrVals lv amt z lts r1 = .ok v ↔ shrVals lv amt z lts r2 = .ok v := by
  unfold shrVals
  split <;> simp

lemma shl_ok_iff_of_count (x c1 c2 : Object) (amt : ℕ)
    (h1 : shiftAmount c1 = .ok amt) (h2 : shiftAmount c2 = .ok amt) (r : Object) :
    operatorShiftLeft x c1 = .ok r ↔ operatorShiftLeft x c2 = .ok r := by
  unfold operatorShiftLeft
  cases hgt : getTypedObject x with
  | error e => simp [hgt]
  | ok l =>
    cases har : l.Value.asReflect with
    | error e => simp [hgt, har]
    | ok lv =>
      simp only [hgt, har, h1, h2, ok_bind]
      cases hrt : getReflectType l.Typ with
      | none => simp [hrt]
      | some rt =>
        simp only [hrt, ok_bind, bind_eq_ok]
        constructor
        · rintro ⟨nv, hA, hk⟩
          exact ⟨nv, (shlVals_rts_irrel lv amt _ _ _ _ nv).mp hA, hk⟩
        · rintro ⟨nv, hB, hk⟩
          exact ⟨nv, (shlVals_rts_irrel lv amt _ _ _ _ nv).mpr hB, hk⟩

lemma shr_ok_iff_of_count (x c1 c2 : Object) (amt : ℕ)
    (h1 : shiftAmount c1 = .ok amt) (h2 : shiftAmount c2 = .ok amt) (r : Object) :
    operatorShiftRight x c1 = .ok r ↔ operatorShiftRight x c2 = .ok r := by
  unfold operatorShiftRight
  cases hgt : getTypedObject x with
  | error e => simp [hgt]
  | ok l =>
    cases har : l.Value.asReflect with
    | error e => simp [hgt, har]
    | ok lv =>
      simp only [hgt, har, h1, h2, ok_bind]
      cases hrt : getReflectType l.Typ with
      | none => simp [hrt]
      | some rt =>
        simp only [hrt, ok_bind, bind_eq_ok]
        constructor
        · rintro ⟨nv, hA, hk⟩
          exact ⟨nv, (shrVals_rts_irrel lv amt _ _ _ _ nv).mp hA, hk⟩
        · rintro ⟨nv, hB, hk⟩
          exact ⟨nv, (shrVals_rts_irrel lv amt _ _ _ _ nv).mpr hB, hk⟩

/-- **C4, amended.** For `ShiftLeft` and `ShiftRight` the shift count may
be any typed *unsigned* integer Object or an untyped integer constant; its
value is extracted as a non-negative 64-bit count without normalizing it
to the left operand's width (a typed *signed* count instead panics inside
`reflect.Value.Uint`, and on an invalid left operand the two
representations differ in the fault's diagnostic text only); the two
representations produce identical results whenever a result Object is
produced: for every left operand `x`,
`ShiftLeft(x, untypedConstant(3)) = .ok r` iff
`ShiftLeft(x, typedUint(3)) = .ok r`, and likewise for `ShiftRight`. -/
theorem C4_shift_count_independence_amended :
    (∀ n : ℕ, n < 2 ^ 63 → shiftAmount (untypedConst n) = .ok n) ∧
    (∀ n : ℕ, shiftAmount (mkIntVal .KUint n) = .ok n) ∧
    (∀ x r, operatorShiftLeft x (untypedConst 3) = .ok r ↔
      operatorShiftLeft x (mkIntVal .KUint 3) = .ok r) ∧
    (∀ x r, operatorShiftRight x (untypedConst 3) = .ok r ↔
      operatorShiftRight x (mkIntVal .KUint 3) = .ok r) := by
  have hu : ∀ n : ℕ, shiftAmount (mkIntVal .KUint n) = .ok n := by
    intro n
    simp [shiftAmount, mkIntVal, isSignedInt, isUnsignedInt, RValue.uintAcc, kindBasic]
  refine ⟨?_, hu, ?_, ?_⟩
  · intro n hn
    simp [shiftAmount, untypedConst, exactUint64Val, toU]
    split_ifs with h <;> omega
  · intro x r
    exact shl_ok_iff_of_count x _ _ 3 (by decide) (hu 3) r
  · intro x r
    exact shr_ok_iff_of_count x _ _ 3 (by decide) (hu 3) r

/-- Witness for C4's amended extraction rule at a concrete input: the
untyped constant 3 and the typed `uint` 3 both extract as the count 3,
and on the valid left operand `Uint8(1)` the two give the same result. -/
theorem C4_shift_count_independence_amended_witness :
    shiftAmount (untypedConst 3) = .ok 3 ∧
    (operatorShiftLeft (mkIntVal .KUint8 1) (untypedConst 3) = .ok (mkIntVal .KUint8 8) ↔
      operatorShiftLeft (mkIntVal .KUint8 1) (mkIntVal .KUint 3) = .ok (mkIntVal .KUint8 8)) :=
  ⟨C4_shift_count_independence_amended.1 3 (by decide),
   C4_shift_count_independence_amended.2.2.1 (mkIntVal .KUint8 1) (mkIntVal .KUint8 8)⟩

/-! ## C6: comparison results carry the caller-supplied type -/

lemma mkCmpResult_named_inv (fname : String) (b : Bool) (n : String) (obj : Object)
    (h : mkCmpResult fname b (.named n .BBool) = .ok obj) :
    obj = ⟨.rv ⟨⟨.KBool, some n⟩, .pbool b⟩, .named n .BBool⟩ := by
  rw [show mkCmpResult fname b (.named n .BBool) =
      .ok (⟨.rv ⟨⟨.KBool, some n⟩, .pbool b⟩, .named n .BBool⟩ : Object) from rfl] at h
  injection h with h
  exact h.symm

lemma mkCmpResult_basic_inv (fname : String) (b : Bool) (obj : Object)
    (h : mkCmpResult fname b (.basic .BBool) = .ok obj) : obj = boolObj b := by
  rw [show mkCmpResult fname b (.basic .BBool) = .ok (boolObj b) from rfl] at h
  injection h with h
  exact h.symm

lemma lessPair (l r : Object) (n : String) (obj : Object)
    (h : operatorLess l r (.named n .BBool) = .ok obj) :
    ∃ b, obj = ⟨.rv ⟨⟨.KBool, some n⟩, .pbool b⟩, .named n .BBool⟩ ∧
      operatorLess l r (.basic .BBool) = .ok (boolObj b) := by
  unfold operatorLess at h ⊢
  simp only [bind_eq_ok] at h
  obtain ⟨l', hl, r', hr, lv, hlv, rv, hrv, b, hb, hm⟩ := h
  exact ⟨b, mkCmpResult_named_inv _ b n obj hm,
    by simp only [hl, hr, hlv, hrv, hb, ok_bind]; rfl⟩

lemma greaterPair (l r : Object) (n : String) (obj : Object)
    (h : operatorGreater l r (.named n .BBool) = .ok obj) :
    ∃ b, obj = ⟨.rv ⟨⟨.KBool, some n⟩, .pbool b⟩, .named n .BBool⟩ ∧
      operatorGreater l r (.basic .BBool) = .ok (boolObj b) := by
  unfold operatorGreater at h ⊢
  simp only [bind_eq_ok] at h
  obtain ⟨l', hl, r', hr, lv, hlv, rv, hrv, b, hb, hm⟩ := h
  exact ⟨b, mkCmpResult_named_inv _ b n obj hm,
    by simp only [hl, hr, hlv, hrv, hb, ok_bind]; rfl⟩

lemma lessEqualPair (l r : Object) (n : String) (obj : Object)
    (h : operatorLessEqual l r (.named n .BBool) = .ok obj) :
    ∃ b, obj = ⟨.rv ⟨⟨.KBool, some n⟩, .pbool b⟩, .named n .BBool⟩ ∧
      operatorLessEqual l r (.basic .BBool) = .ok (boolObj b) := by
  unfold operatorLessEqual at h ⊢
  simp only [bind_eq_ok] at h
  obtain ⟨l', hl, r', hr, lv, hlv, rv, hrv, b, hb, hm⟩ := h
  exact ⟨b, mkCmpResult_named_inv _ b n obj hm,
    by simp only [hl, hr, hlv, hrv, hb, ok_bind]; rfl⟩

lemma greaterEqualPair (l r : Object) (n : String) (obj : Object)
    (h : operatorGreaterEqual l r (.named n .BBool) = .ok obj) :
    ∃ b, obj = ⟨.rv ⟨⟨.KBool, some n⟩, .pbool b⟩, .named n .BBool⟩ ∧
      operatorGreaterEqual l r (.basic .BBool) = .ok (boolObj b) := by
  unfold operatorGreaterEqual at h ⊢
  simp only [bind_eq_ok] at h
  obtain ⟨l', hl, r', hr, lv, hlv, rv, hrv, b, hb, hm⟩ := h
  exact ⟨b, mkCmpResult_named_inv _ b n obj hm,
    by simp only [hl, hr, hlv, hrv, hb, ok_bind]; rfl⟩

lemma equalPair (l r : Object) (n : String) (obj : Object)
    (h : operatorEqual l r (.named n .BBool) = .ok obj) :
    ∃ b, obj = ⟨.rv ⟨⟨.KBool, some n⟩, .pbool b⟩, .named n .BBool⟩ ∧
      operatorEqual l r (.basic .BBool) = .ok (boolObj b) := by
  unfold operatorEqual at h ⊢
  simp only [bind_eq_ok] at h
  obtain ⟨lp, hlp, rp, hrp, b, hb, hm⟩ := h
  exact ⟨b, mkCmpResult_named_inv _ b n obj hm,
    by simp only [hlp, hrp, hb, ok_bind]; rfl⟩

lemma lessPlain (l r : Object) (obj : Object)
    (h : operatorLess l r (.basic .BBool) = .ok obj) : ∃ b, obj = boolObj b := by
  unfold operatorLess at h
  simp only [bind_eq_ok] at h
  obtain ⟨l', hl, r', hr, lv, hlv, rv, hrv, b, hb, hm⟩ := h
  exact ⟨b, mkCmpResult_basic_inv _ b obj hm⟩

lemma greaterPlain (l r : Object) (obj : Object)
    (h : operatorGreater l r (.basic .BBool) = .ok obj) : ∃ b, obj = boolObj b := by
  unfold operatorGreater at h
  simp only [bind_eq_ok] at h
  obtain ⟨l', hl, r', hr, lv, hlv, rv, hrv, b, hb, hm⟩ := h
  exact ⟨b, mkCmpResult_basic_inv _ b obj hm⟩

lemma lessEqualPlain (l r : Object) (obj : Object)
    (h : operatorLessEqual l r (.basic .BBool) = .ok obj) : ∃ b, obj = boolObj b := by
  unfold operatorLessEqual at h
  simp only [bind_eq_ok] at h
  obtain ⟨l', hl, r', hr, lv, hlv, rv, hrv, b, hb, hm⟩ := h
  exact ⟨b, mkCmpResult_basic_inv _ b obj hm⟩

lemma greaterEqualPlain (l r : Object) (obj : Object)
    (h : operatorGreaterEqual l r (.basic .BBool) = .ok obj) : ∃ b, obj = boolObj b := by
  unfold operatorGreaterEqual at h
  simp only [bind_eq_ok] at h
  obtain ⟨l', hl, r', hr, lv, hlv, rv, hrv, b, hb, hm⟩ := h
  exact ⟨b, mkCmpResult_basic_inv _ b obj hm⟩

lemma equalPlain (l r : Object) (obj : Object)
    (h : operatorEqual l r (.basic .BBool) = .ok obj) : ∃ b, obj = boolObj b := by
  unfold operatorEqual at h
  simp only [bind_eq_ok] at h
  obtain ⟨lp, hlp, rp, hrp, b, hb, hm⟩ := h
  exact ⟨b, mkCmpResult_basic_inv _ b obj hm⟩

/-- The five comparison tokens. -/
def cmpTokens : List Token := [.LSS, .GTR, .LEQ, .GEQ, .EQL]

/-- **C6.** For every ordered comparison and for `Equal`: when the
caller-supplied result type is a named type whose underlying Kind is Bool,
the result Object carries that named type and a fresh value of the named
Kind holding the boolean result (the same boolean the plain-`bool` run
produces); when the result type is the predeclared `bool`, the result is a
plain Bool-kind Object.  In particular two `Int32` operands compared under
a named boolean result type yield an Object of the named type, not plain
`bool`. -/
theorem C6_comparison_named_result_type :
    (∀ op, op ∈ cmpTokens → ∀ l r (n : String) obj,
      doBinaryComparisonOp l r op (.named n .BBool) = .ok obj →
        ∃ b, obj = ⟨.rv ⟨⟨.KBool, some n⟩, .pbool b⟩, .named n .BBool⟩ ∧
          doBinaryComparisonOp l r op (.basic .BBool) = .ok (boolObj b)) ∧
    (∀ op, op ∈ cmpTokens → ∀ l r obj,
      doBinaryComparisonOp l r op (.basic .BBool) = .ok obj → ∃ b, obj = boolObj b) ∧
    doBinaryComparisonOp (mkIntVal .KInt32 1) (mkIntVal .KInt32 2) .LSS
        (.named "MyBool" .BBool) =
      .ok ⟨.rv ⟨⟨.KBool, some "MyBool"⟩, .pbool true⟩, .named "MyBool" .BBool⟩ := by
  refine ⟨?_, ?_, by decide⟩
  · intro op hop l r n obj h
    fin_cases hop
    · exact lessPair l r n obj h
    · exact greaterPair l r n obj h
    · exact lessEqualPair l r n obj h
    · exact greaterEqualPair l r n obj h
    · exact equalPair l r n obj h
  · intro op hop l r obj h
    fin_cases hop
    · exact lessPlain l r obj h
    · exact greaterPlain l r obj h
    · exact lessEqualPlain l r obj h
    · exact greaterEqualPlain l r obj h
    · exact equalPlain l r obj h

/-- Witness for C6 at a concrete input: `Less` on two `Int32` operands
under the named boolean type `MyBool`. -/
theorem C6_comparison_named_result_type_witness :
    ∃ b, (⟨.rv ⟨⟨.KBool, some "MyBool"⟩, .pbool true⟩, .named "MyBool" .BBool⟩ : Object) =
        ⟨.rv ⟨⟨.KBool, some "MyBool"⟩, .pbool b⟩, .named "MyBool" .BBool⟩ ∧
      doBinaryComparisonOp (mkIntVal .KInt32 1) (mkIntVal .KInt32 2) .LSS (.basic .BBool) =
        .ok (boolObj b) :=
  C6_comparison_named_result_type.1 .LSS (by decide) (mkIntVal .KInt32 1) (mkIntVal .KInt32 2)
    "MyBool" _ (by decide)

/-! ## C9: results carry the left operand's type in a fresh slot -/

lemma setInt_ty {v : RValue} {x : ℤ} {v' : RValue}
    (h : v.setInt x = .ok v') : v'.ty = v.ty := by
  unfold RValue.setInt at h
  split at h
  · injection h with h
    rw [← h]
  · simp at h

lemma setUint_ty {v : RValue} {x : ℕ} {v' : RValue}
    (h : v.setUint x = .ok v') : v'.ty = v.ty := by
  unfold RValue.setUint at h
  split at h
  · injection h with h
    rw [← h]
  · simp at h

lemma setFloat_ty {v : RValue} {x : FloatVal} {v' : RValue}
    (h : v.setFloat x = .ok v') : v'.ty = v.ty := by
  unfold RValue.setFloat at h
  split at h <;> first
    | (injection h with h; rw [← h])
    | simp at h

lemma setComplex_ty {v : RValue} {x : FloatVal × FloatVal} {v' : RValue}
    (h : v.setComplex x = .ok v') : v'.ty = v.ty := by
  unfold RValue.setComplex at h
  split at h <;> first
    | (injection h with h; rw [← h])
    | simp at h

lemma setString_ty {v : RValue} {x : String} {v' : RValue}
    (h : v.setString x = .ok v') : v'.ty = v.ty := by
  unfold RValue.setString at h
  split at h <;> first
    | (injection h with h; rw [← h])
    | simp at h

lemma addVals_ty {lv rv z : RValue} {lts rts : String} {nv : RValue}
    (h : addVals lv rv z lts rts = .ok nv) : nv.ty = z.ty := by
  unfold addVals at h
  split at h <;>
    first
      | exact setString_ty h
      | (simp only [bind_eq_ok] at h
         obtain ⟨a, ha, b, hb, hset⟩ := h
         first
           | exact setInt_ty hset
           | exact setUint_ty hset
           | exact setFloat_ty hset
           | exact setComplex_ty hset)
      | simp at h

lemma subVals_ty {lv rv z : RValue} {lts rts : String} {nv : RValue}
    (h : subVals lv rv z lts rts = .ok nv) : nv.ty = z.ty := by
  unfold subVals at h
  split at h <;>
    first
      | (simp only [bind_eq_ok] at h
         obtain ⟨a, ha, b, hb, hset⟩ := h
         first
           | exact setInt_ty hset
           | exact setUint_ty hset
           | exact setFloat_ty hset
           | exact setComplex_ty hset)
      | simp at h

lemma mulVals_ty {lv rv z : RValue} {lts rts : String} {nv : RValue}
    (h : mulVals lv rv z lts rts = .ok nv) : nv.ty = z.ty := by
  unfold mulVals at h
  split at h <;>
    first
      | (simp only [bind_eq_ok] at h
         obtain ⟨a, ha, b, hb, hset⟩ := h
         first
           | exact setInt_ty hset
           | exact setUint_ty hset
           | exact setFloat_ty hset
           | exact setComplex_ty hset)
      | simp at h

lemma quotVals_ty {lv rv z : RValue} {lts rts : String} {nv : RValue}
    (h : quotVals lv rv z lts rts = .ok nv) : nv.ty = z.ty := by
  unfold quotVals at h
  split at h <;>
    first
      | (simp only [bind_eq_ok] at h
         obtain ⟨a, ha, b, hb, hset⟩ := h
         first
           | exact setFloat_ty hset
           | exact setComplex_ty hset
           | (split at hset
              · simp at hset
              · first
                  | exact setInt_ty hset
                  | exact setUint_ty hset))
      | simp at h

lemma remVals_ty {lv rv z : RValue} {lts rts : String} {nv : RValue}
    (h : remVals lv rv z lts rts = .ok nv) : nv.ty = z.ty := by
  unfold remVals at h
  split at h <;>
    first
      | (simp only [bind_eq_ok] at h
         obtain ⟨a, ha, b, hb, hset⟩ := h
         split at hset
         · simp at hset
         · first
             | exact setInt_ty hset
             | exact setUint_ty hset)
      | simp at h

lemma andVals_ty {lv rv z : RValue} {lts rts : String} {nv : RValue}
    (h : andVals lv rv z lts rts = .ok nv) : nv.ty = z.ty := by
  unfold andVals at h
  split at h <;>
    first
      | (simp only [bind_eq_ok] at h
         obtain ⟨a, ha, b, hb, hset⟩ := h
         first
           | exact setInt_ty hset
           | exact setUint_ty hset)
      | simp at h

lemma orVals_ty {lv rv z : RValue} {lts rts : String} {nv : RValue}
    (h : orVals lv rv z lts rts = .ok nv) : nv.ty = z.ty := by
  unfold orVals at h
  split at h <;>
    first
      | (simp only [bind_eq_ok] at h
         obtain ⟨a, ha, b, hb, hset⟩ := h
         first
           | exact setInt_ty hset
           | exact setUint_ty hset)
      | simp at h

lemma xorVals_ty {lv rv z : RValue} {lts rts : String} {nv : RValue}
    (h : xorVals lv rv z lts rts = .ok nv) : nv.ty = z.ty := by
  unfold xorVals at h
  split at h <;>
    first
      | (simp only [bind_eq_ok] at h
         obtain ⟨a, ha, b, hb, hset⟩ := h
         first
           | exact setInt_ty hset
           | exact setUint_ty hset)
      | simp at h

lemma andNotVals_ty {lv rv z : RValue} {lts rts : String} {nv : RValue}
    (h : andNotVals lv rv z lts rts = .ok nv) : nv.ty = z.ty := by
  unfold andNotVals at h
  split at h <;>
    first
      | (simp only [bind_eq_ok] at h
         obtain ⟨a, ha, b, hb, hset⟩ := h
         first
           | exact setInt_ty hset
           | exact setUint_ty hset)
      | simp at h

lemma shlVals_ty {lv : RValue} {amt : ℕ} {z : RValue} {lts rts : String} {nv : RValue}
    (h : shlVals lv amt z lts rts = .ok nv) : nv.ty = z.ty := by
  unfold shlVals at h
  split at h <;>
    first
      | (simp only [bind_eq_ok] at h
         obtain ⟨a, ha, hset⟩ := h
         first
           | exact setInt_ty hset
           | exact setUint_ty hset)
      | simp at h

lemma shrVals_ty {lv : RValue} {amt : ℕ} {z : RValue} {lts rts : String} {nv : RValue}
    (h : shrVals lv amt z lts rts = .ok nv) : nv.ty = z.ty := by
  unfold shrVals at h
  split at h <;>
    first
      | (simp only [bind_eq_ok] at h
         obtain ⟨a, ha, hset⟩ := h
         first
           | exact setInt_ty hset
           | exact setUint_ty hset)
      | simp at h

/-- The shape every successful binary arithmetic/bitwise result has. -/
def resultShape (l obj : Object) : Prop :=
  ∃ l' rt, getTypedObject l = .ok l' ∧ getReflectType l'.Typ = some rt ∧
    obj.Typ = l'.Typ ∧ ∃ p, obj.Value = .rv ⟨rt, p⟩

lemma addShape {l r obj : Object} (h : operatorAdd l r = .ok obj) : resultShape l obj := by
  unfold operatorAdd at h
  simp only [bind_eq_ok] at h
  obtain ⟨l', hl, r', hr, lv, hlv, rv, hrv, h⟩ := h
  split at h
  · rename_i rt0 heq
    simp only [ok_bind, bind_eq_ok, pure_eq_ok] at h
    obtain ⟨nv, hnv, hpure⟩ := h
    have hty : nv.ty = rt0 := addVals_ty hnv
    injection hpure with hpure
    refine ⟨l', rt0, hl, heq, ?_, nv.payload, ?_⟩
    · rw [← hpure]
    · rw [← hpure]
      show GoValue.rv nv = .rv ⟨rt0, nv.payload⟩
      rw [← hty]
  · simp at h

lemma subShape {l r obj : Object} (h : operatorSubtract l r = .ok obj) : resultShape l obj := by
  unfold operatorSubtract at h
  simp only [bind_eq_ok] at h
  obtain ⟨l', hl, r', hr, lv, hlv, rv, hrv, h⟩ := h
  split at h
  · rename_i rt0 heq
    simp only [ok_bind, bind_eq_ok, pure_eq_ok] at h
    obtain ⟨nv, hnv, hpure⟩ := h
    have hty : nv.ty = rt0 := subVals_ty hnv
    injection hpure with hpure
    refine ⟨l', rt0, hl, heq, ?_, nv.payload, ?_⟩
    · rw [← hpure]
    · rw [← hpure]
      show GoValue.rv nv = .rv ⟨rt0, nv.payload⟩
      rw [← hty]
  · simp at h

lemma mulShape {l r obj : Object} (h : operatorMultiply l r = .ok obj) : resultShape l obj := by
  unfold operatorMultiply at h
  simp only [bind_eq_ok] at h
  obtain ⟨l', hl, r', hr, lv, hlv, rv, hrv, h⟩ := h
  split at h
  · rename_i rt0 heq
    simp only [ok_bind, bind_eq_ok, pure_eq_ok] at h
    obtain ⟨nv, hnv, hpure⟩ := h
    have hty : nv.ty = rt0 := mulVals_ty hnv
    injection hpure with hpure
    refine ⟨l', rt0, hl, heq, ?_, nv.payload, ?_⟩
    · rw [← hpure]
    · rw [← hpure]
      show GoValue.rv nv = .rv ⟨rt0, nv.payload⟩
      rw [← hty]
  · simp at h

lemma quotShape {l r obj : Object} (h : operatorQuotient l r = .ok obj) : resultShape l obj := by
  unfold operatorQuotient at h
  simp only [bind_eq_ok] at h
  obtain ⟨l', hl, r', hr, lv, hlv, rv, hrv, h⟩ := h
  split at h
  · rename_i rt0 heq
    simp only [ok_bind, bind_eq_ok, pure_eq_ok] at h
    obtain ⟨nv, hnv, hpure⟩ := h
    have hty : nv.ty = rt0 := quotVals_ty hnv
    injection hpure with hpure
    refine ⟨l', rt0, hl, heq, ?_, nv.payload, ?_⟩
    · rw [← hpure]
    · rw [← hpure]
      show GoValue.rv nv = .rv ⟨rt0, nv.payload⟩
      rw [← hty]
  · simp at h

lemma remShape {l r obj : Object} (h : operatorRemainder l r = .ok obj) : resultShape l obj := by
  unfold operatorRemainder at h
  simp only [bind_eq_ok] at h
  obtain ⟨l', hl, r', hr, lv, hlv, rv, hrv, h⟩ := h
  split at h
  · rename_i rt0 heq
    simp only [ok_bind, bind_eq_ok, pure_eq_ok] at h
    obtain ⟨nv, hnv, hpure⟩ := h
    have hty : nv.ty = rt0 := remVals_ty hnv
    injection hpure with hpure
    refine ⟨l', rt0, hl, heq, ?_, nv.payload, ?_⟩
    · rw [← hpure]
    · rw [← hpure]
      show GoValue.rv nv = .rv ⟨rt0, nv.payload⟩
      rw [← hty]
  · simp at h

lemma andShape {l r obj : Object} (h : operatorAnd l r = .ok obj) : resultShape l obj := by
  unfold operatorAnd at h
  simp only [bind_eq_ok] at h
  obtain ⟨l', hl, r', hr, lv, hlv, rv, hrv, h⟩ := h
  split at h
  · rename_i rt0 heq
    simp only [ok_bind, bind_eq_ok, pure_eq_ok] at h
    obtain ⟨nv, hnv, hpure⟩ := h
    have hty : nv.ty = rt0 := andVals_ty hnv
    injection hpure with hpure
    refine ⟨l', rt0, hl, heq, ?_, nv.payload, ?_⟩
    · rw [← hpure]
    · rw [← hpure]
      show GoValue.rv nv = .rv ⟨rt0, nv.payload⟩
      rw [← hty]
  · simp at h

lemma orShape {l r obj : Object} (h : operatorOr l r = .ok obj) : resultShape l obj := by
  unfold operatorOr at h
  simp only [bind_eq_ok] at h
  obtain ⟨l', hl, r', hr, lv, hlv, rv, hrv, h⟩ := h
  split at h
  · rename_i rt0 heq
    simp only [ok_bind, bind_eq_ok, pure_eq_ok] at h
    obtain ⟨nv, hnv, hpure⟩ := h
    have hty : nv.ty = rt0 := orVals_ty hnv
    injection hpure with hpure
    refine ⟨l', rt0, hl, heq, ?_, nv.payload, ?_⟩
    · rw [← hpure]
    · rw [← hpure]
      show GoValue.rv nv = .rv ⟨rt0, nv.payload⟩
      rw [← hty]
  · simp at h

lemma xorShape {l r obj : Object} (h : operatorXor l r = .ok obj) : resultShape l obj := by
  unfold operatorXor at h
  simp only [bind_eq_ok] at h
  obtain ⟨l', hl, r', hr, lv, hlv, rv, hrv, h⟩ := h
  split at h
  · rename_i rt0 heq
    simp only [ok_bind, bind_eq_ok, pure_eq_ok] at h
    obtain ⟨nv, hnv, hpure⟩ := h
    have hty : nv.ty = rt0 := xorVals_ty hnv
    injection hpure with hpure
    refine ⟨l', rt0, hl, heq, ?_, nv.payload, ?_⟩
    · rw [← hpure]
    · rw [← hpure]
      show GoValue.rv nv = .rv ⟨rt0, nv.payload⟩
      rw [← hty]
  · simp at h

lemma andNotShape {l r obj : Object} (h : operatorAndNot l r = .ok obj) : resultShape l obj := by
  unfold operatorAndNot at h
  simp only [bind_eq_ok] at h
  obtain ⟨l', hl, r', hr, lv, hlv, rv, hrv, h⟩ := h
  split at h
  · rename_i rt0 heq
    simp only [ok_bind, bind_eq_ok, pure_eq_ok] at h
    obtain ⟨nv, hnv, hpure⟩ := h
    have hty : nv.ty = rt0 := andNotVals_ty hnv
    injection hpure with hpure
    refine ⟨l', rt0, hl, heq, ?_, nv.payload, ?_⟩
    · rw [← hpure]
    · rw [← hpure]
      show GoValue.rv nv = .rv ⟨rt0, nv.payload⟩
      rw [← hty]
  · simp at h

lemma shlShape {l r obj : Object} (h : operatorShiftLeft l r = .ok obj) : resultShape l obj := by
  unfold operatorShiftLeft at h
  simp only [bind_eq_ok] at h
  obtain ⟨l', hl, lv, hlv, amt, hamt, h⟩ := h
  split at h
  · rename_i rt0 heq
    simp only [ok_bind, bind_eq_ok, pure_eq_ok] at h
    obtain ⟨nv, hnv, hpure⟩ := h
    have hty : nv.ty = rt0 := shlVals_ty hnv
    injection hpure with hpure
    refine ⟨l', rt0, hl, heq, ?_, nv.payload, ?_⟩
    · rw [← hpure]
    · rw [← hpure]
      show GoValue.rv nv = .rv ⟨rt0, nv.payload⟩
      rw [← hty]
  · simp at h

lemma shrShape {l r obj : Object} (h : operatorShiftRight l r = .ok obj) : resultShape l obj := by
  unfold operatorShiftRight at h
  simp only [bind_eq_ok] at h
  obtain ⟨l', hl, lv, hlv, amt, hamt, h⟩ := h
  split at h
  · rename_i rt0 heq
    simp only [ok_bind, bind_eq_ok, pure_eq_ok] at h
    obtain ⟨nv, hnv, hpure⟩ := h
    have hty : nv.ty = rt0 := shrVals_ty hnv
    injection hpure with hpure
    refine ⟨l', rt0, hl, heq, ?_, nv.payload, ?_⟩
    · rw [← hpure]
    · rw [← hpure]
      show GoValue.rv nv = .rv ⟨rt0, nv.payload⟩
      rw [← hty]
  · simp at h

/-- The eleven arithmetic/bitwise tokens of `doBinaryOp`. -/
def arithTokens : List Token :=
  [.ADD, .SUB, .MUL, .QUO, .REM, .AND, .OR, .XOR, .AND_NOT, .SHL, .SHR]

/-- **C9.** For every arithmetic and bitwise operation, a successful
result Object carries exactly the normalized left operand's
TypeDescriptor (so it inherits the left operand's named-type identity),
and its value lives in the freshly allocated zero slot of the registry's
resolution of that type: the result value's reflect type is that
resolution.  No input Object is mutated — every engine function of this
embedding is a pure function returning a newly constructed Object. -/
theorem C9_result_inherits_left_type :
    ∀ op, op ∈ arithTokens → ∀ l r obj,
      doBinaryOp l r op = .ok obj → resultShape l obj := by
  intro op hop l r obj h
  fin_cases hop
  · exact addShape h
  · exact subShape h
  · exact mulShape h
  · exact quotShape h
  · exact remShape h
  · exact andShape h
  · exact orShape h
  · exact xorShape h
  · exact andNotShape h
  · exact shlShape h
  · exact shrShape h

/-- Witness for C9 at a concrete input: `Add(Int8(1), Int8(2))` returns
`Int8(3)`, whose type is the left operand's and whose value slot has the
resolved reflect type. -/
theorem C9_result_inherits_left_type_witness :
    resultShape (mkIntVal .KInt8 1) (mkIntVal .KInt8 3) :=
  C9_result_inherits_left_type .ADD (by decide) (mkIntVal .KInt8 1) (mkIntVal .KInt8 2)
    (mkIntVal .KInt8 3) (by decide)

end GoConsole
